import Mathlib

/-!
Verification of the opsagents deployment orchestrator.

This file gives a shallow embedding of the ECS deployment orchestrator
(`pkg/deploy/lightsail.go`, ECSDeployer part), the Lightsail wait loop
(`WaitForServiceReady`), and the conversational tool dispatcher
(`pkg/agent`, `ExecuteTool` and friends).

The embedding is call-trace based: every AWS SDK invocation performed by the
Go code is recorded as a `Call` value, and the provider's account inventory is
a first-order `PState` record.  Fallible SDK calls are modelled with an
injectable fault per operation (`Faults`); a describe call that succeeds
returns the content of `PState`.  Error values are strings built with the same
wrapping as the Go `fmt.Errorf` calls.  Container-definition payloads (images,
ports, memory) are threaded through `ECSConfig` but their JSON bodies are not
modelled, since no claim inspects them; the registration call itself is
recorded in the trace.
-/

namespace OpsAgents

/-- Go `error` values are modelled as strings. -/
abbrev GoErr := String

/-- A JSON-ish value, for the `map[string]interface{}` tool-call inputs. -/
inductive JVal
  | str (s : String)
  | bool (b : Bool)
  | num (n : Int)
  | null
deriving DecidableEq, Repr

/-- One ECS service in the provider inventory (`DescribeServices` row). -/
structure ServiceRec where
  cluster : String
  name : String
  status : String
deriving DecidableEq, Repr

/-- One load balancer in the provider inventory. -/
structure LBRec where
  name : String
  active : Bool
deriving DecidableEq, Repr

/-- One target group in the provider inventory. -/
structure TGRec where
  name : String
  port : Nat
deriving DecidableEq, Repr

/-- One listener in the provider inventory. -/
structure ListenerRec where
  lbArn : String
  port : Nat
  isHTTP : Bool
  targetGroupArn : String
deriving DecidableEq, Repr

/-- One EFS file system in the provider inventory. -/
structure FSRec where
  fsId : String
deriving DecidableEq, Repr

/-- One EFS mount target in the provider inventory. -/
structure MTRec where
  fsId : String
  subnetId : String
  mtId : String
deriving DecidableEq, Repr

/-- One EC2 security group in the provider inventory. -/
structure SGRec where
  vpcId : String
  groupName : String
  groupId : String
deriving DecidableEq, Repr

/-- The provider's account-scoped inventory, as observed via describe/list
calls.  `taskDefs` holds one entry (the family name) per registered revision.
`subnets` pairs a VPC id with a subnet id.  `efsReadyAfter` is the poll index
at which a freshly created EFS file system first reports `available`. -/
structure PState where
  clusters : List String
  services : List ServiceRec
  taskDefs : List String
  loadBalancers : List LBRec
  targetGroups : List TGRec
  listeners : List ListenerRec
  logGroups : List String
  secrets : List (String × String)
  fileSystems : List FSRec
  mountTargets : List MTRec
  tasks : List (String × String)
  defaultVpc : Option String
  subnets : List (String × String)
  secGroups : List SGRec
  efsReadyAfter : Nat
deriving DecidableEq, Repr

/-- Per-operation fault injection: `true` means the corresponding AWS SDK
call returns an error. -/
structure Faults where
  newDeployer : Bool := false
  createCluster : Bool := false
  registerTaskDef : Bool := false
  describeServices : Bool := false
  updateService : Bool := false
  createService : Bool := false
  waitServicesStable : Bool := false
  describeVpcs : Bool := false
  describeSubnets : Bool := false
  describeSecurityGroups : Bool := false
  describeLoadBalancers : Bool := false
  createLoadBalancer : Bool := false
  describeTargetGroups : Bool := false
  createTargetGroup : Bool := false
  describeListeners : Bool := false
  createListener : Bool := false
  modifyListener : Bool := false
  createSecret : Bool := false
  createFileSystem : Bool := false
  describeFileSystems : Bool := false
  createMountTarget : Bool := false
  deleteService : Bool := false
  listTaskDefs : Bool := false
  deregisterTaskDef : Bool := false
  deleteListener : Bool := false
  deleteLoadBalancer : Bool := false
  deleteTargetGroup : Bool := false
  listServices : Bool := false
  listTasks : Bool := false
  deleteCluster : Bool := false
  deleteLogGroup : Bool := false
  deleteSecret : Bool := false
  describeMountTargets : Bool := false
  deleteMountTarget : Bool := false
  deleteFileSystem : Bool := false
deriving DecidableEq, Repr

/-- The fault-free provider behaviour: every SDK call succeeds. -/
def noFaults : Faults := {}

/-- One AWS SDK invocation, as recorded in the call trace. -/
inductive Call
  | createCluster (name : String)
  | registerTaskDef (family : String)
  | describeServices (cluster service : String)
  | updateService (cluster service : String) (taskDef : Option String) (desired : Option Nat)
  | createService (cluster service taskDef : String) (desired : Nat)
  | waitServicesStable (cluster service : String) (timeoutMinutes : Nat)
  | describeVpcs
  | describeSubnets (vpcId : String)
  | describeSecurityGroups (vpcId : String)
  | describeLoadBalancers (name : String)
  | createLoadBalancer (name : String)
  | describeTargetGroups (name : String)
  | createTargetGroup (name : String) (port : Nat)
  | describeListeners (lbArn : String)
  | createListener (lbArn targetGroupArn : String) (port : Nat)
  | modifyListener (listenerArn targetGroupArn : String)
  | createLogGroup (name : String)
  | createSecret (name value : String)
  | createFileSystem (token : String)
  | describeFileSystems (fsId : String)
  | createMountTarget (fsId subnetId : String)
  | sleep (seconds : Nat)
  | deleteService (cluster service : String)
  | listTaskDefs (family : String)
  | deregisterTaskDef (arn : String)
  | deleteListener (arn : String)
  | deleteLoadBalancer (arn : String)
  | deleteTargetGroup (arn : String)
  | listServices (cluster : String)
  | listTasks (cluster : String)
  | deleteCluster (cluster : String)
  | deleteLogGroup (name : String)
  | deleteSecret (name : String)
  | describeMountTargets (fsId : String)
  | deleteMountTarget (mtId : String)
  | deleteFileSystem (fsId : String)
deriving DecidableEq, Repr

/-- Opaque provider-assigned identifiers, derived deterministically from
resource names (the orchestrator only threads them through). -/
def lbArnOf (name : String) : String := "arn:lb:" ++ name

def tgArnOf (name : String) : String := "arn:tg:" ++ name

def listenerArnOf (l : ListenerRec) : String :=
  "arn:listener:" ++ l.lbArn ++ ":" ++ toString l.port

def taskDefArnOf (family : String) : String := "arn:td:" ++ family

def secretArnOf (name : String) : String := "arn:secret:" ++ name

/-- The `ECSConfig` struct of `pkg/deploy` (field for field). -/
structure ECSConfig where
  clusterName : String
  serviceName : String
  taskDefinitionName : String
  vpcId : String
  subnetIds : List String
  securityGroupIds : List String
  loadBalancerName : String
  webAppImage : String
  databaseImage : String
  webAppPort : Nat
  databasePort : Nat
  databaseHTTPPort : Nat
  webAppMemory : Nat
  webAppCPU : Nat
  databaseMemory : Nat
  databaseCPU : Nat
  environment : List (String × String)
  createSecrets : Bool
  createEFS : Bool
  efsVolumeId : String
  mode : String
deriving DecidableEq, Repr

/-- The process environment variables consumed by `CreateSecrets`. -/
structure Env where
  anthropicApiKey : String
  gmailUser : String
  gmailPass : String
deriving DecidableEq, Repr

/-- Services of a given cluster, as listed by `ListServices`. -/
def servicesIn (s : PState) (cluster : String) : List ServiceRec :=
  s.services.filter (fun r => decide (r.cluster = cluster))

/-- Tasks of a given cluster, as listed by `ListTasks`. -/
def tasksIn (s : PState) (cluster : String) : List (String × String) :=
  s.tasks.filter (fun r => decide (r.fst = cluster))

/-- The services returned by `DescribeServices` for a (cluster, name) pair. -/
def serviceLookup (s : PState) (cluster service : String) : List ServiceRec :=
  s.services.filter (fun r => decide (r.cluster = cluster ∧ r.name = service))

/-- Listeners attached to a load balancer, per `DescribeListeners`. -/
def listenersOf (s : PState) (lbArn : String) : List ListenerRec :=
  s.listeners.filter (fun l => decide (l.lbArn = lbArn))

/-- `ECSDeployer.CreateCluster` (lightsail.go:256): a single `CreateCluster`
SDK call; ECS cluster creation is idempotent on the name. -/
def CreateCluster (f : Faults) (clusterName : String) (s : PState) :
    Except GoErr Unit × PState × List Call :=
  let t := [Call.createCluster clusterName]
  if f.createCluster then (.error "failed to create ECS cluster: fault", s, t)
  else
    (.ok (),
     { s with clusters :=
         if s.clusters.contains clusterName then s.clusters
         else s.clusters ++ [clusterName] }, t)

/-- `ECSDeployer.createLogGroup` (lightsail.go:757): a `CreateLogGroup` call
whose error is swallowed ("might already exist"); always returns nil. -/
def createLogGroup (logGroupName : String) (s : PState) : PState × List Call :=
  ({ s with logGroups :=
       if s.logGroups.contains logGroupName then s.logGroups
       else s.logGroups ++ [logGroupName] },
   [Call.createLogGroup logGroupName])

/-- The web-app CloudWatch log group name for a task-definition family. -/
def webAppLogGroupOf (family : String) : String := "/ecs/" ++ family ++ "-webapp"

/-- The database CloudWatch log group name for a task-definition family. -/
def dbLogGroupOf (family : String) : String := "/ecs/" ++ family ++ "-database"

/-- `ECSDeployer.CreateTaskDefinition` (lightsail.go:279): create the two log
groups, then register the task definition (container bodies not modelled). -/
def CreateTaskDefinition (f : Faults) (cfg : ECSConfig) (s : PState) :
    Except GoErr Unit × PState × List Call :=
  let r1 := createLogGroup (webAppLogGroupOf cfg.taskDefinitionName) s
  let r2 := createLogGroup (dbLogGroupOf cfg.taskDefinitionName) r1.1
  let t := r1.2 ++ r2.2 ++ [Call.registerTaskDef cfg.taskDefinitionName]
  if f.registerTaskDef then (.error "failed to register task definition: fault", r2.1, t)
  else (.ok (), { r2.1 with taskDefs := r2.1.taskDefs ++ [cfg.taskDefinitionName] }, t)

/-- `ECSDeployer.CreateTaskDefinitionAdvanced` (lightsail.go:367): same call
sequence as the basic registration; the secret wiring and EFS volume only
change the request body, which is not modelled. -/
def CreateTaskDefinitionAdvanced (f : Faults) (cfg : ECSConfig)
    (_secretArns : List (String × String)) (s : PState) :
    Except GoErr Unit × PState × List Call :=
  let r1 := createLogGroup (webAppLogGroupOf cfg.taskDefinitionName) s
  let r2 := createLogGroup (dbLogGroupOf cfg.taskDefinitionName) r1.1
  let t := r1.2 ++ r2.2 ++ [Call.registerTaskDef cfg.taskDefinitionName]
  if f.registerTaskDef then (.error "failed to register task definition: fault", r2.1, t)
  else (.ok (), { r2.1 with taskDefs := r2.1.taskDefs ++ [cfg.taskDefinitionName] }, t)

/-- `ECSDeployer.autoDiscoverNetworking` (lightsail.go:788): default VPC, its
subnets, and (when none configured) its default security group. -/
def autoDiscoverNetworking (f : Faults) (cfg : ECSConfig) (s : PState) :
    Except GoErr ECSConfig × List Call :=
  if f.describeVpcs then (.error "failed to describe VPCs: fault", [Call.describeVpcs])
  else
    match s.defaultVpc with
    | none => (.error "no default VPC found", [Call.describeVpcs])
    | some vpc =>
      let cfg1 := { cfg with vpcId := vpc }
      let t1 := [Call.describeVpcs, Call.describeSubnets vpc]
      if f.describeSubnets then (.error "failed to describe subnets: fault", t1)
      else
        let subs := (s.subnets.filter (fun p => decide (p.fst = vpc))).map Prod.snd
        let cfg2 := { cfg1 with subnetIds := subs }
        if subs.isEmpty then (.error ("no subnets found in VPC " ++ vpc), t1)
        else if cfg2.securityGroupIds.isEmpty then
          let t2 := t1 ++ [Call.describeSecurityGroups vpc]
          if f.describeSecurityGroups then
            (.error "failed to describe security groups: fault", t2)
          else
            match s.secGroups.filter
                (fun g => decide (g.vpcId = vpc ∧ g.groupName = "default")) with
            | g :: _ => (.ok { cfg2 with securityGroupIds := [g.groupId] }, t2)
            | [] => (.ok cfg2, t2)
        else (.ok cfg2, t1)

/-- The load balancer name derived from the service name (`%s-alb`). -/
def lbNameOf (serviceName : String) : String := serviceName ++ "-alb"

/-- The target group name derived from the service name (`%s-tg`). -/
def tgNameOf (serviceName : String) : String := serviceName ++ "-tg"

/-- The `CreateLoadBalancer` tail of `ECSDeployer.createLoadBalancer`. -/
def createLoadBalancerNew (f : Faults) (lbName : String) (s : PState) (t0 : List Call) :
    Except GoErr String × PState × List Call :=
  let t := t0 ++ [Call.createLoadBalancer lbName]
  if f.createLoadBalancer then (.error "failed to create load balancer: fault", s, t)
  else
    (.ok (lbArnOf lbName),
     { s with loadBalancers := s.loadBalancers ++ [⟨lbName, true⟩] }, t)

/-- `ECSDeployer.createLoadBalancer` (lightsail.go:863): describe by name;
reuse when present and active, otherwise create. -/
def createLoadBalancer (f : Faults) (cfg : ECSConfig) (s : PState) :
    Except GoErr String × PState × List Call :=
  let lbName := lbNameOf cfg.serviceName
  let t0 := [Call.describeLoadBalancers lbName]
  if f.describeLoadBalancers then createLoadBalancerNew f lbName s t0
  else
    match s.loadBalancers.filter (fun b => decide (b.name = lbName)) with
    | b :: _ =>
      if b.active then (.ok (lbArnOf b.name), s, t0)
      else createLoadBalancerNew f lbName s t0
    | [] => createLoadBalancerNew f lbName s t0

/-- The `CreateTargetGroup` tail of `ECSDeployer.createTargetGroup`. -/
def createTargetGroupNew (f : Faults) (cfg : ECSConfig) (tgName : String)
    (s : PState) (t0 : List Call) :
    Except GoErr String × PState × List Call :=
  let t := t0 ++ [Call.createTargetGroup tgName cfg.webAppPort]
  if f.createTargetGroup then (.error "failed to create target group: fault", s, t)
  else
    (.ok (tgArnOf tgName),
     { s with targetGroups := s.targetGroups ++ [⟨tgName, cfg.webAppPort⟩] }, t)

/-- `ECSDeployer.createTargetGroup` (lightsail.go:715): describe by name;
reuse regardless of settings when present, otherwise create. -/
def createTargetGroup (f : Faults) (cfg : ECSConfig) (s : PState) :
    Except GoErr String × PState × List Call :=
  let tgName := tgNameOf cfg.serviceName
  let t0 := [Call.describeTargetGroups tgName]
  if f.describeTargetGroups then createTargetGroupNew f cfg tgName s t0
  else
    match s.targetGroups.filter (fun g => decide (g.name = tgName)) with
    | g :: _ => (.ok (tgArnOf g.name), s, t0)
    | [] => createTargetGroupNew f cfg tgName s t0

/-- Point an existing listener's default action at a new target group. -/
def setListenerTG (s : PState) (l : ListenerRec) (tg : String) : PState :=
  { s with listeners :=
      s.listeners.map (fun x => if x = l then { x with targetGroupArn := tg } else x) }

/-- The listener loop of `ECSDeployer.createListener` (lightsail.go:912-934):
for each port-80 HTTP listener, try `ModifyListener`; on success return
immediately, on failure print a warning and keep scanning.  Returns whether a
modify succeeded. -/
def modifyListenerLoop (f : Faults) (targetGroupArn : String) :
    List ListenerRec → PState → Bool × PState × List Call
  | [], s => (false, s, [])
  | l :: rest, s =>
    if l.port = 80 ∧ l.isHTTP then
      if f.modifyListener then
        let r := modifyListenerLoop f targetGroupArn rest s
        (r.1, r.2.1, Call.modifyListener (listenerArnOf l) targetGroupArn :: r.2.2)
      else
        (true, setListenerTG s l targetGroupArn,
         [Call.modifyListener (listenerArnOf l) targetGroupArn])
    else modifyListenerLoop f targetGroupArn rest s

/-- The `CreateListener` tail of `ECSDeployer.createListener`. -/
def createListenerNew (f : Faults) (lbArn targetGroupArn : String) (s : PState)
    (t0 : List Call) : Except GoErr Unit × PState × List Call :=
  let t := t0 ++ [Call.createListener lbArn targetGroupArn 80]
  if f.createListener then (.error "failed to create listener: fault", s, t)
  else
    (.ok (),
     { s with listeners := s.listeners ++ [⟨lbArn, 80, true, targetGroupArn⟩] }, t)

/-- `ECSDeployer.createListener` (lightsail.go:903): describe listeners; if a
port-80 HTTP listener exists, modify it to forward to the new target group,
otherwise create a fresh port-80 listener. -/
def createListener (f : Faults) (lbArn targetGroupArn : String) (s : PState) :
    Except GoErr Unit × PState × List Call :=
  let t0 := [Call.describeListeners lbArn]
  if f.describeListeners then createListenerNew f lbArn targetGroupArn s t0
  else
    let r := modifyListenerLoop f targetGroupArn (listenersOf s lbArn) s
    if r.1 then (.ok (), r.2.1, t0 ++ r.2.2)
    else createListenerNew f lbArn targetGroupArn r.2.1 (t0 ++ r.2.2)

/-- The full-creation path of `ECSDeployer.CreateService` (lightsail.go:614-669):
auto-discover networking when missing, ensure load balancer, target group and
listener, then create the service with desired count 1. -/
def CreateServiceFull (f : Faults) (cfg : ECSConfig) (s : PState) (t0 : List Call) :
    Except GoErr Unit × PState × List Call :=
  let disc : Except GoErr ECSConfig × List Call :=
    if cfg.vpcId = "" ∨ cfg.subnetIds.isEmpty then autoDiscoverNetworking f cfg s
    else (.ok cfg, [])
  match disc.1 with
  | .error e => (.error ("failed to auto-discover networking: " ++ e), s, t0 ++ disc.2)
  | .ok cfg1 =>
    let rl := createLoadBalancer f cfg1 s
    match rl.1 with
    | .error e =>
      (.error ("failed to create load balancer: " ++ e), rl.2.1, t0 ++ disc.2 ++ rl.2.2)
    | .ok lbArn =>
      let rt := createTargetGroup f cfg1 rl.2.1
      match rt.1 with
      | .error e =>
        (.error ("failed to create target group: " ++ e), rt.2.1,
         t0 ++ disc.2 ++ rl.2.2 ++ rt.2.2)
      | .ok tgArn =>
        let rn := createListener f lbArn tgArn rt.2.1
        match rn.1 with
        | .error e =>
          (.error ("failed to create listener: " ++ e), rn.2.1,
           t0 ++ disc.2 ++ rl.2.2 ++ rt.2.2 ++ rn.2.2)
        | .ok _ =>
          let tc := [Call.createService cfg1.clusterName cfg1.serviceName
                       cfg1.taskDefinitionName 1]
          if f.createService then
            (.error "failed to create ECS service: fault", rn.2.1,
             t0 ++ disc.2 ++ rl.2.2 ++ rt.2.2 ++ rn.2.2 ++ tc)
          else
            (.ok (),
             { rn.2.1 with services :=
                 rn.2.1.services ++ [⟨cfg1.clusterName, cfg1.serviceName, "ACTIVE"⟩] },
             t0 ++ disc.2 ++ rl.2.2 ++ rt.2.2 ++ rn.2.2 ++ tc)

/-- `ECSDeployer.CreateService` (lightsail.go:586): describe by name; when the
service exists with status ACTIVE, update its task definition in place and
return; otherwise run the full creation path. -/
def CreateService (f : Faults) (cfg : ECSConfig) (s : PState) :
    Except GoErr Unit × PState × List Call :=
  let t0 := [Call.describeServices cfg.clusterName cfg.serviceName]
  if f.describeServices then CreateServiceFull f cfg s t0
  else
    match serviceLookup s cfg.clusterName cfg.serviceName with
    | svc :: _ =>
      if svc.status = "ACTIVE" then
        let t1 := t0 ++ [Call.updateService cfg.clusterName cfg.serviceName
                           (some cfg.taskDefinitionName) none]
        if f.updateService then (.error "failed to update ECS service: fault", s, t1)
        else (.ok (), s, t1)
      else CreateServiceFull f cfg s t0
    | [] => CreateServiceFull f cfg s t0

/-- `ECSDeployer.GetServiceStatus` (lightsail.go:671): describe and format. -/
def GetServiceStatus (f : Faults) (clusterName serviceName : String) (s : PState) :
    Except GoErr String × List Call :=
  let t := [Call.describeServices clusterName serviceName]
  if f.describeServices then (.error "failed to describe service: fault", t)
  else
    match serviceLookup s clusterName serviceName with
    | [] => (.error ("service " ++ serviceName ++ " not found"), t)
    | svc :: _ => (.ok ("Service: " ++ svc.name ++ " Status: " ++ svc.status), t)

/-- `ECSDeployer.WaitForServiceStable` (lightsail.go:697): the SDK services
stable waiter with an explicit 10-minute bound. -/
def WaitForServiceStable (f : Faults) (clusterName serviceName : String) :
    Except GoErr Unit × List Call :=
  let t := [Call.waitServicesStable clusterName serviceName 10]
  if f.waitServicesStable then
    (.error "failed waiting for service to be stable: fault", t)
  else (.ok (), t)

/-- The password character set of `generateRandomPassword` (lightsail.go:1307). -/
def charset : String :=
  "abcdefghijklmnopqrstuvwxyzABCDEFGHIJKLMNOPQRSTUVWXYZ0123456789!@#$%^&*"

/-- The character set as a list of characters. -/
def charsetChars : List Char := charset.toList

/-- `ECSDeployer.generateRandomPassword` (lightsail.go:1306): `len` uniform
draws from the 70-character set.  `rng i` models the i-th draw of
`rand.Int(rand.Reader, charsetLen)`; the Go value is always below the charset
length, which the `%` makes explicit.  `start` positions this password's draws
inside the process-wide random stream. -/
def generateRandomPassword (rng : Nat → Nat) (start len : Nat) : String :=
  String.mk ((List.range len).map
    (fun i => charsetChars.getD (rng (start + i) % charsetChars.length) 'a'))

/-- `ECSDeployer.createSecret` (lightsail.go:1290): one `CreateSecret` call,
returning the provider-assigned ARN. -/
def createSecret (f : Faults) (name value : String) (s : PState) :
    Except GoErr String × PState × List Call :=
  let t := [Call.createSecret name value]
  if f.createSecret then
    (.error ("failed to create secret " ++ name ++ ": fault"), s, t)
  else (.ok (secretArnOf name), { s with secrets := s.secrets ++ [(name, value)] }, t)

/-- The environment-sourced tail of `CreateSecrets` (steps 4-6): Anthropic API
key, Gmail user and Gmail password, each registered only when the
corresponding environment variable is non-empty. -/
def CreateSecretsEnvTail (f : Faults) (env : Env) (serviceName : String)
    (base : List (String × String)) (s : PState) :
    Except GoErr (List (String × String)) × PState × List Call :=
  if env.anthropicApiKey = "" then
    if env.gmailUser = "" then
      if env.gmailPass = "" then (.ok base, s, [])
      else
        let r := createSecret f (serviceName ++ "-gmail-pass") env.gmailPass s
        match r.1 with
        | .error e => (.error ("failed to create Gmail password secret: " ++ e), r.2)
        | .ok arn => (.ok (base ++ [("GMAIL_PASS_ARN", arn)]), r.2)
    else
      let r := createSecret f (serviceName ++ "-gmail-user") env.gmailUser s
      match r.1 with
      | .error e => (.error ("failed to create Gmail user secret: " ++ e), r.2)
      | .ok arnU =>
        if env.gmailPass = "" then (.ok (base ++ [("GMAIL_USER_ARN", arnU)]), r.2)
        else
          let r2 := createSecret f (serviceName ++ "-gmail-pass") env.gmailPass r.2.1
          match r2.1 with
          | .error e =>
            (.error ("failed to create Gmail password secret: " ++ e), r2.2.1, r.2.2 ++ r2.2.2)
          | .ok arnP =>
            (.ok (base ++ [("GMAIL_USER_ARN", arnU), ("GMAIL_PASS_ARN", arnP)]),
             r2.2.1, r.2.2 ++ r2.2.2)
  else
    let r := createSecret f (serviceName ++ "-anthropic-key") env.anthropicApiKey s
    match r.1 with
    | .error e => (.error ("failed to create Anthropic API secret: " ++ e), r.2)
    | .ok arnA =>
      let base1 := base ++ [("ANTHROPIC_SECRET_ARN", arnA)]
      if env.gmailUser = "" then
        if env.gmailPass = "" then (.ok base1, r.2)
        else
          let r2 := createSecret f (serviceName ++ "-gmail-pass") env.gmailPass r.2.1
          match r2.1 with
          | .error e =>
            (.error ("failed to create Gmail password secret: " ++ e), r2.2.1, r.2.2 ++ r2.2.2)
          | .ok arnP => (.ok (base1 ++ [("GMAIL_PASS_ARN", arnP)]), r2.2.1, r.2.2 ++ r2.2.2)
      else
        let r2 := createSecret f (serviceName ++ "-gmail-user") env.gmailUser r.2.1
        match r2.1 with
        | .error e =>
          (.error ("failed to create Gmail user secret: " ++ e), r2.2.1, r.2.2 ++ r2.2.2)
        | .ok arnU =>
          let base2 := base1 ++ [("GMAIL_USER_ARN", arnU)]
          if env.gmailPass = "" then (.ok base2, r2.2.1, r.2.2 ++ r2.2.2)
          else
            let r3 := createSecret f (serviceName ++ "-gmail-pass") env.gmailPass r2.2.1
            match r3.1 with
            | .error e =>
              (.error ("failed to create Gmail password secret: " ++ e), r3.2.1,
               r.2.2 ++ r2.2.2 ++ r3.2.2)
            | .ok arnP =>
              (.ok (base2 ++ [("GMAIL_PASS_ARN", arnP)]), r3.2.1,
               r.2.2 ++ r2.2.2 ++ r3.2.2)

/-- `ECSDeployer.CreateSecrets` (lightsail.go:1221): generate and register the
database password (32 chars), JWT secret (64 chars) and session key (32
chars), then the up-to-three environment-sourced secrets.  The random stream
`rng` is consumed left to right: draws 0-31, 32-95, 96-127. -/
def CreateSecrets (f : Faults) (env : Env) (rng : Nat → Nat) (serviceName : String)
    (s : PState) : Except GoErr (List (String × String)) × PState × List Call :=
  let r1 := createSecret f (serviceName ++ "-db-password") (generateRandomPassword rng 0 32) s
  match r1.1 with
  | .error e => (.error ("failed to create database secret: " ++ e), r1.2)
  | .ok dbArn =>
    let r2 := createSecret f (serviceName ++ "-jwt-secret")
                (generateRandomPassword rng 32 64) r1.2.1
    match r2.1 with
    | .error e => (.error ("failed to create JWT secret: " ++ e), r2.2.1, r1.2.2 ++ r2.2.2)
    | .ok jwtArn =>
      let r3 := createSecret f (serviceName ++ "-session-key")
                  (generateRandomPassword rng 96 32) r2.2.1
      match r3.1 with
      | .error e =>
        (.error ("failed to create session key: " ++ e), r3.2.1, r1.2.2 ++ r2.2.2 ++ r3.2.2)
      | .ok sessArn =>
        let base := [("DB_SECRET_ARN", dbArn), ("JWT_SECRET_ARN", jwtArn),
                     ("SESSION_KEY_ARN", sessArn)]
        let r4 := CreateSecretsEnvTail f env serviceName base r3.2.1
        match r4.1 with
        | .error e => (.error e, r4.2.1, r1.2.2 ++ r2.2.2 ++ r3.2.2 ++ r4.2.2)
        | .ok m => (.ok m, r4.2.1, r1.2.2 ++ r2.2.2 ++ r3.2.2 ++ r4.2.2)

/-- The availability poll of `ECSDeployer.CreateEFS` (lightsail.go:1352-1369):
up to 60 iterations of describe / break-if-available / timeout-at-59 / sleep 5s.
`n` is the remaining iteration budget (60 at the top call), `i` the Go loop
index; the file system reports available once `readyAfter ≤ i`. -/
def efsAvailLoop (f : Faults) (readyAfter : Nat) (fsId : String) :
    Nat → Nat → Except GoErr Unit × List Call
  | 0, _ => (.ok (), [])
  | n + 1, i =>
    let c := Call.describeFileSystems fsId
    if f.describeFileSystems then (.error "failed to describe EFS: fault", [c])
    else if readyAfter ≤ i then (.ok (), [c])
    else if i = 59 then (.error "timeout waiting for EFS to be available", [c])
    else
      let r := efsAvailLoop f readyAfter fsId n (i + 1)
      (r.1, c :: Call.sleep 5 :: r.2)

/-- `ECSDeployer.createEFSMountTargets` (lightsail.go:1381): one
`CreateMountTarget` call per subnet; failures are warnings, always nil. -/
def createEFSMountTargets (f : Faults) (efsId : String) :
    List String → PState → PState × List Call
  | [], s => (s, [])
  | sub :: rest, s =>
    let s1 :=
      if f.createMountTarget then s
      else { s with mountTargets :=
               s.mountTargets ++ [⟨efsId, sub, "mt-" ++ efsId ++ "-" ++ sub⟩] }
    let r := createEFSMountTargets f efsId rest s1
    (r.1, Call.createMountTarget efsId sub :: r.2)

/-- `ECSDeployer.CreateEFS` (lightsail.go:1321): create the file system, poll
until available (bounded), then create mount targets in every subnet. -/
def CreateEFS (f : Faults) (serviceName : String) (subnetIds : List String)
    (_securityGroupIds : List String) (s : PState) :
    Except GoErr String × PState × List Call :=
  let t0 := [Call.createFileSystem (serviceName ++ "-efs")]
  if f.createFileSystem then (.error "failed to create EFS file system: fault", s, t0)
  else
    let efsId := "fs-" ++ serviceName
    let s1 := { s with fileSystems := s.fileSystems ++ [⟨efsId⟩] }
    let w := efsAvailLoop f s.efsReadyAfter efsId 60 0
    match w.1 with
    | .error e => (.error e, s1, t0 ++ w.2)
    | .ok _ =>
      let r := createEFSMountTargets f efsId subnetIds s1
      (.ok efsId, r.1, t0 ++ w.2 ++ r.2)

/-- The EFS block of `ECSDeployer.DeployAdvanced` (lightsail.go:554-570):
auto-discover networking when missing, create the EFS volume and write its id
into this call's config copy. -/
def deployAdvancedEFS (f : Faults) (cfg : ECSConfig) (s : PState) :
    Except GoErr ECSConfig × PState × List Call :=
  if cfg.createEFS then
    let disc : Except GoErr ECSConfig × List Call :=
      if cfg.vpcId = "" ∨ cfg.subnetIds.isEmpty then autoDiscoverNetworking f cfg s
      else (.ok cfg, [])
    match disc.1 with
    | .error e => (.error ("failed to auto-discover VPC config: " ++ e), s, disc.2)
    | .ok cfg1 =>
      let r := CreateEFS f cfg1.serviceName cfg1.subnetIds cfg1.securityGroupIds s
      match r.1 with
      | .error e => (.error ("failed to create EFS: " ++ e), r.2.1, disc.2 ++ r.2.2)
      | .ok efsId => (.ok { cfg1 with efsVolumeId := efsId }, r.2.1, disc.2 ++ r.2.2)
  else (.ok cfg, s, [])

/-- `ECSDeployer.DeployAdvanced` (lightsail.go:540): secrets when enabled,
then the EFS block, then the advanced (with secrets) or basic task
definition. -/
def DeployAdvanced (f : Faults) (env : Env) (rng : Nat → Nat) (cfg : ECSConfig)
    (s : PState) : Except GoErr Unit × PState × List Call :=
  if cfg.createSecrets then
    let rs := CreateSecrets f env rng cfg.serviceName s
    match rs.1 with
    | .error e => (.error ("failed to create secrets: " ++ e), rs.2)
    | .ok arns =>
      let re := deployAdvancedEFS f cfg rs.2.1
      match re.1 with
      | .error e => (.error e, re.2.1, rs.2.2 ++ re.2.2)
      | .ok cfg1 =>
        let rt := CreateTaskDefinitionAdvanced f cfg1 arns re.2.1
        match rt.1 with
        | .error e =>
          (.error ("failed to create advanced task definition: " ++ e), rt.2.1,
           rs.2.2 ++ re.2.2 ++ rt.2.2)
        | .ok _ => (.ok (), rt.2.1, rs.2.2 ++ re.2.2 ++ rt.2.2)
  else
    let re := deployAdvancedEFS f cfg s
    match re.1 with
    | .error e => (.error e, re.2)
    | .ok cfg1 =>
      let rt := CreateTaskDefinition f cfg1 re.2.1
      match rt.1 with
      | .error e =>
        (.error ("failed to create task definition: " ++ e), rt.2.1, re.2.2 ++ rt.2.2)
      | .ok _ => (.ok (), rt.2.1, re.2.2 ++ rt.2.2)

/-- `ECSDeployer.deleteService` (lightsail.go:1012): scale to zero, wait
(5-minute bound, timeout only warns), then delete. -/
def deleteService (f : Faults) (clusterName serviceName : String) (s : PState) :
    Except GoErr Unit × PState × List Call :=
  let t1 := [Call.updateService clusterName serviceName none (some 0)]
  if f.updateService then (.error "failed to scale down service: fault", s, t1)
  else
    let t3 := t1 ++ [Call.waitServicesStable clusterName serviceName 5,
                     Call.deleteService clusterName serviceName]
    if f.deleteService then (.error "failed to delete service: fault", s, t3)
    else
      (.ok (),
       { s with services :=
           (s.services.filter
             (fun r => !decide (r.cluster = clusterName ∧ r.name = serviceName))) }, t3)

/-- `ECSDeployer.deleteTaskDefinition` (lightsail.go:1049): list all active
revisions of the family and deregister each (failures are warnings). -/
def deleteTaskDefinition (f : Faults) (family : String) (s : PState) :
    Except GoErr Unit × PState × List Call :=
  let t1 := [Call.listTaskDefs family]
  if f.listTaskDefs then (.error "failed to list task definitions: fault", s, t1)
  else
    let arns := (s.taskDefs.filter (fun d => decide (d = family))).map taskDefArnOf
    let s1 :=
      if f.deregisterTaskDef then s
      else { s with taskDefs := s.taskDefs.filter (fun d => !decide (d = family)) }
    (.ok (), s1, t1 ++ arns.map Call.deregisterTaskDef)

/-- The listener-deletion loop of `deleteLoadBalancerResources`
(lightsail.go:1103-1112): delete each listener, failures are warnings. -/
def deleteListenersLoop (f : Faults) :
    List ListenerRec → PState → PState × List Call
  | [], s => (s, [])
  | l :: rest, s =>
    let s1 :=
      if f.deleteListener then s
      else { s with listeners := s.listeners.filter (fun x => !decide (x = l)) }
    let r := deleteListenersLoop f rest s1
    (r.1, Call.deleteListener (listenerArnOf l) :: r.2)

/-- `ECSDeployer.deleteLoadBalancerResources` (lightsail.go:1076): find the
load balancer (absence is tolerated), delete its listeners, delete it, wait
30s, then delete the target group (absence tolerated). -/
def deleteLoadBalancerResources (f : Faults) (serviceName : String) (s : PState) :
    Except GoErr Unit × PState × List Call :=
  let lbName := lbNameOf serviceName
  let tgName := tgNameOf serviceName
  let t1 := [Call.describeLoadBalancers lbName]
  if f.describeLoadBalancers then (.ok (), s, t1)
  else
    match s.loadBalancers.filter (fun b => decide (b.name = lbName)) with
    | [] => (.ok (), s, t1)
    | b :: _ =>
      let lbArn := lbArnOf b.name
      let t2 := t1 ++ [Call.describeListeners lbArn]
      let rl :=
        if f.describeListeners then (s, [])
        else deleteListenersLoop f (listenersOf s lbArn) s
      let t3 := t2 ++ rl.2 ++ [Call.deleteLoadBalancer lbArn]
      if f.deleteLoadBalancer then (.error "failed to delete load balancer: fault", rl.1, t3)
      else
        let s3 := { rl.1 with loadBalancers :=
                      rl.1.loadBalancers.filter (fun x => !decide (x.name = lbName)) }
        let t4 := t3 ++ [Call.sleep 30, Call.describeTargetGroups tgName]
        if f.describeTargetGroups then (.ok (), s3, t4)
        else
          match s3.targetGroups.filter (fun g => decide (g.name = tgName)) with
          | [] => (.ok (), s3, t4)
          | g :: _ =>
            let t5 := t4 ++ [Call.deleteTargetGroup (tgArnOf g.name)]
            if f.deleteTargetGroup then (.error "failed to delete target group: fault", s3, t5)
            else
              (.ok (),
               { s3 with targetGroups :=
                   s3.targetGroups.filter (fun x => !decide (x.name = tgName)) }, t5)

/-- `ECSDeployer.deleteCluster` (lightsail.go:1151): list services, list
tasks, and only when both are empty issue `DeleteCluster`. -/
def deleteCluster (f : Faults) (clusterName : String) (s : PState) :
    Except GoErr Unit × PState × List Call :=
  if f.listServices then
    (.error "failed to list services in cluster: fault", s, [Call.listServices clusterName])
  else if ¬(servicesIn s clusterName).isEmpty then
    (.ok (), s, [Call.listServices clusterName])
  else if f.listTasks then
    (.error "failed to list tasks in cluster: fault", s,
     [Call.listServices clusterName, Call.listTasks clusterName])
  else if ¬(tasksIn s clusterName).isEmpty then
    (.ok (), s, [Call.listServices clusterName, Call.listTasks clusterName])
  else if f.deleteCluster then
    (.error "failed to delete cluster: fault", s,
     [Call.listServices clusterName, Call.listTasks clusterName,
      Call.deleteCluster clusterName])
  else
    (.ok (), { s with clusters := s.clusters.filter (fun c => !decide (c = clusterName)) },
     [Call.listServices clusterName, Call.listTasks clusterName,
      Call.deleteCluster clusterName])

/-- `ECSDeployer.deleteLogGroups` (lightsail.go:1192): delete both log groups
by naming convention; failures are warnings, always nil. -/
def deleteLogGroups (f : Faults) (family : String) (s : PState) :
    Except GoErr Unit × PState × List Call :=
  let w := webAppLogGroupOf family
  let dgrp := dbLogGroupOf family
  let s1 :=
    if f.deleteLogGroup then s
    else { s with logGroups := s.logGroups.filter (fun x => !decide (x = w ∨ x = dgrp)) }
  (.ok (), s1, [Call.deleteLogGroup w, Call.deleteLogGroup dgrp])

/-- The six secret names deleted by `deleteSecrets` (lightsail.go:1405). -/
def secretNamesOf (serviceName : String) : List String :=
  [serviceName ++ "-db-password", serviceName ++ "-jwt-secret",
   serviceName ++ "-session-key", serviceName ++ "-anthropic-key",
   serviceName ++ "-gmail-user", serviceName ++ "-gmail-pass"]

/-- `ECSDeployer.deleteSecrets` (lightsail.go:1402): force-delete all six
secrets by naming convention; failures are warnings, always nil. -/
def deleteSecrets (f : Faults) (serviceName : String) (s : PState) :
    Except GoErr Unit × PState × List Call :=
  let names := secretNamesOf serviceName
  let s1 :=
    if f.deleteSecret then s
    else { s with secrets := s.secrets.filter (fun p => !decide (p.fst ∈ names)) }
  (.ok (), s1, names.map Call.deleteSecret)

/-- The `DeleteFileSystem` tail of `ECSDeployer.deleteEFS`. -/
def deleteEFSFileSystem (f : Faults) (efsId : String) (s : PState) (acc : List Call) :
    Except GoErr Unit × PState × List Call :=
  let t := acc ++ [Call.deleteFileSystem efsId]
  if f.deleteFileSystem then (.error "failed to delete EFS file system: fault", s, t)
  else
    (.ok (), { s with fileSystems := s.fileSystems.filter (fun x => !decide (x.fsId = efsId)) }, t)

/-- `ECSDeployer.deleteEFS` (lightsail.go:1429): delete every mount target
(describe failure only warns and skips them), wait 30s when any were present,
then delete the file system. -/
def deleteEFS (f : Faults) (efsId : String) (s : PState) :
    Except GoErr Unit × PState × List Call :=
  let t1 := [Call.describeMountTargets efsId]
  if f.describeMountTargets then deleteEFSFileSystem f efsId s t1
  else
    let mts := s.mountTargets.filter (fun m => decide (m.fsId = efsId))
    let tDel := mts.map (fun m => Call.deleteMountTarget m.mtId)
    let s1 :=
      if f.deleteMountTarget then s
      else { s with mountTargets := s.mountTargets.filter (fun m => !decide (m.fsId = efsId)) }
    let tSleep : List Call := if mts.isEmpty then [] else [Call.sleep 30]
    deleteEFSFileSystem f efsId s1 (t1 ++ tDel ++ tSleep)

/-- `ECSDeployer.Cleanup` (lightsail.go:959): run every deletion sub-step in
order, logging (and otherwise ignoring) each sub-step's error, and return nil
unconditionally. -/
def Cleanup (f : Faults) (cfg : ECSConfig) (s : PState) :
    Except GoErr Unit × PState × List Call :=
  let r1 := deleteService f cfg.clusterName cfg.serviceName s
  let r2 := deleteTaskDefinition f cfg.taskDefinitionName r1.2.1
  let r3 := deleteLoadBalancerResources f cfg.serviceName r2.2.1
  let r4 := deleteCluster f cfg.clusterName r3.2.1
  let r5 := deleteLogGroups f cfg.taskDefinitionName r4.2.1
  let r6 :=
    if cfg.createSecrets then deleteSecrets f cfg.serviceName r5.2.1
    else (.ok (), r5.2.1, ([] : List Call))
  let r7 :=
    if cfg.createEFS && !(cfg.efsVolumeId = "") then deleteEFS f cfg.efsVolumeId r6.2.1
    else (.ok (), r6.2.1, ([] : List Call))
  (.ok (), r7.2.1,
   r1.2.2 ++ r2.2.2 ++ r3.2.2 ++ r4.2.2 ++ r5.2.2 ++ r6.2.2 ++ r7.2.2)

/-! ## The conversational tool dispatcher (`pkg/agent`) -/

/-- A `tool_use` block from the model: id, tool name and keyed arguments. -/
structure ToolUse where
  id : String
  name : String
  input : List (String × JVal)
deriving DecidableEq, Repr

/-- The `ToolResult` struct returned to the conversation. -/
structure ToolResult where
  type : String
  toolUseID : String
  content : String
deriving DecidableEq, Repr

/-- Go map lookup `toolUse.Input[key]`. -/
def lookupInput (input : List (String × JVal)) (key : String) : Option JVal :=
  (input.find? (fun p => decide (p.fst = key))).map Prod.snd

/-- The Go type assertion `v.(string)`: `none` when absent or not a string. -/
def asString : Option JVal → Option String
  | some (JVal.str v) => some v
  | _ => none

/-- The Go type assertion `v.(bool)`: `none` when absent or not a boolean. -/
def asBool : Option JVal → Option Bool
  | some (JVal.bool b) => some b
  | _ => none

/-- Service-name resolution shared by the deploy and cleanup tools:
`if name, ok := input["service_name"].(string); ok && name != ""`. -/
def resolveServiceName (defaultName : String) (input : List (String × JVal)) : String :=
  match asString (lookupInput input "service_name") with
  | some n => if n = "" then defaultName else n
  | none => defaultName

/-- `wait_for_ready` resolution in `executeDeployTool`: defaults to true,
overridden only by a boolean argument. -/
def resolveWaitForReady (input : List (String × JVal)) : Bool :=
  match asBool (lookupInput input "wait_for_ready") with
  | some b => b
  | none => true

/-- The distinct return points of `executeDeployTool` (part_004:167-266). -/
inductive DeployOutcome
  | initFailed (e : GoErr)
  | advancedFailed (e : GoErr)
  | taskDefFailed (e : GoErr)
  | serviceFailed (e : GoErr)
  | waitFailed (e : GoErr)
  | success (serviceName : String)
deriving DecidableEq, Repr

/-- The `Content` string produced at each return point of
`executeDeployTool`. -/
def renderDeployOutcome : DeployOutcome → String
  | .initFailed e => "Failed to initialize ECS deployer: " ++ e
  | .advancedFailed e => "Failed to deploy with advanced features: " ++ e
  | .taskDefFailed e => "Failed to create task definition: " ++ e
  | .serviceFailed e => "Failed to create ECS service: " ++ e
  | .waitFailed e => "Failed waiting for service to be stable: " ++ e
  | .success n => "ECS deployment to service " ++ n ++ " completed successfully!"

/-- The tail of `executeDeployTool` after the task-definition phase: create
the ECS service, then optionally wait for stability. -/
def deployServicePhase (f : Faults) (cfg : ECSConfig) (t : ToolUse) (s : PState)
    (acc : List Call) : DeployOutcome × PState × List Call :=
  let rc := CreateService f cfg s
  match rc.1 with
  | .error e => (.serviceFailed e, rc.2.1, acc ++ rc.2.2)
  | .ok _ =>
    if resolveWaitForReady t.input then
      let rw := WaitForServiceStable f cfg.clusterName cfg.serviceName
      match rw.1 with
      | .error e => (.waitFailed e, rc.2.1, acc ++ rc.2.2 ++ rw.2)
      | .ok _ => (.success cfg.serviceName, rc.2.1, acc ++ rc.2.2 ++ rw.2)
    else (.success cfg.serviceName, rc.2.1, acc ++ rc.2.2)

/-- `ClaudeAgent.executeDeployTool` (part_004:167): build the config (with
the optional service-name override), create the cluster (error only logged),
run the advanced or basic task-definition path, create the service, and
optionally wait. -/
def executeDeployToolCore (f : Faults) (env : Env) (rng : Nat → Nat)
    (cfg0 : ECSConfig) (t : ToolUse) (s : PState) :
    DeployOutcome × PState × List Call :=
  if f.newDeployer then (.initFailed "fault", s, [])
  else
    let cfg := { cfg0 with serviceName := resolveServiceName cfg0.serviceName t.input }
    let rc := CreateCluster f cfg.clusterName s
    if cfg.createSecrets || cfg.createEFS then
      let ra := DeployAdvanced f env rng cfg rc.2.1
      match ra.1 with
      | .error e => (.advancedFailed e, ra.2.1, rc.2.2 ++ ra.2.2)
      | .ok _ => deployServicePhase f cfg t ra.2.1 (rc.2.2 ++ ra.2.2)
    else
      let rt := CreateTaskDefinition f cfg rc.2.1
      match rt.1 with
      | .error e => (.taskDefFailed e, rt.2.1, rc.2.2 ++ rt.2.2)
      | .ok _ => deployServicePhase f cfg t rt.2.1 (rc.2.2 ++ rt.2.2)

/-- `executeDeployTool` proper: every return point wraps its message in a
`ToolResult` carrying the invocation id, with a nil Go error. -/
def executeDeployTool (f : Faults) (env : Env) (rng : Nat → Nat) (cfg0 : ECSConfig)
    (t : ToolUse) (s : PState) :
    (Option ToolResult × Option GoErr) × PState × List Call :=
  let r := executeDeployToolCore f env rng cfg0 t s
  ((some ⟨"tool_result", t.id, renderDeployOutcome r.1⟩, none), r.2.1, r.2.2)

/-- The distinct return points of `executeStatusTool` (part_004:268-305). -/
inductive StatusOutcome
  | missingParam
  | initFailed (e : GoErr)
  | statusFailed (e : GoErr)
  | success (status : String)
deriving DecidableEq, Repr

/-- The `Content` string at each return point of `executeStatusTool`. -/
def renderStatusOutcome : StatusOutcome → String
  | .missingParam => "service_name parameter is required"
  | .initFailed e => "Failed to initialize ECS deployer: " ++ e
  | .statusFailed e => "Failed to get service status: " ++ e
  | .success st => st

/-- `ClaudeAgent.executeStatusTool` (part_004:268): require `service_name`,
construct the deployer, and describe the service. -/
def executeStatusToolCore (f : Faults) (cfg0 : ECSConfig) (t : ToolUse) (s : PState) :
    StatusOutcome × List Call :=
  match asString (lookupInput t.input "service_name") with
  | none => (.missingParam, [])
  | some serviceName =>
    if f.newDeployer then (.initFailed "fault", [])
    else
      match GetServiceStatus f cfg0.clusterName serviceName s with
      | (.error e, tc) => (.statusFailed e, tc)
      | (.ok st, tc) => (.success st, tc)

/-- `executeStatusTool` proper (result wrapper, nil Go error). -/
def executeStatusTool (f : Faults) (cfg0 : ECSConfig) (t : ToolUse) (s : PState) :
    (Option ToolResult × Option GoErr) × PState × List Call :=
  let r := executeStatusToolCore f cfg0 t s
  ((some ⟨"tool_result", t.id, renderStatusOutcome r.1⟩, none), s, r.2)

/-- The distinct return points of `executeCleanupTool` (part_004:307-376). -/
inductive CleanupOutcome
  | cancelled
  | initFailed (e : GoErr)
  | cleanupFailed (e : GoErr)
  | success (serviceName : String)
deriving DecidableEq, Repr

/-- The cancellation message of `executeCleanupTool`. -/
def cleanupCancelledMsg : String :=
  "Cleanup cancelled. The confirm parameter must be set to true to proceed with resource deletion."

/-- The `Content` string at each return point of `executeCleanupTool`. -/
def renderCleanupOutcome : CleanupOutcome → String
  | .cancelled => cleanupCancelledMsg
  | .initFailed e => "Failed to initialize ECS deployer: " ++ e
  | .cleanupFailed e => "Cleanup failed: " ++ e
  | .success n => "Successfully cleaned up all AWS ECS resources for service " ++ n ++ "!"

/-- `ClaudeAgent.executeCleanupTool` (part_004:307): the `confirm` argument
must be the boolean `true`, otherwise the call short-circuits to a
cancellation result before the deployer is even constructed; only then is the
config built and `Cleanup` run. -/
def executeCleanupToolCore (f : Faults) (cfg0 : ECSConfig) (t : ToolUse) (s : PState) :
    CleanupOutcome × PState × List Call :=
  match asBool (lookupInput t.input "confirm") with
  | some true =>
    if f.newDeployer then (.initFailed "fault", s, [])
    else
      let cfg := { cfg0 with serviceName := resolveServiceName cfg0.serviceName t.input }
      let r := Cleanup f cfg s
      match r.1 with
      | .error e => (.cleanupFailed e, r.2)
      | .ok _ => (.success cfg.serviceName, r.2)
  | _ => (.cancelled, s, [])

/-- `executeCleanupTool` proper (result wrapper, nil Go error). -/
def executeCleanupTool (f : Faults) (cfg0 : ECSConfig) (t : ToolUse) (s : PState) :
    (Option ToolResult × Option GoErr) × PState × List Call :=
  let r := executeCleanupToolCore f cfg0 t s
  ((some ⟨"tool_result", t.id, renderCleanupOutcome r.1⟩, none), r.2.1, r.2.2)

/-- `ClaudeAgent.ExecuteTool` (part_004:149): string dispatch over the three
tool names; unknown names produce an "Unknown tool" result.  Every branch
returns a non-nil `ToolResult` and a nil Go error. -/
def ExecuteTool (f : Faults) (env : Env) (rng : Nat → Nat) (cfg0 : ECSConfig)
    (t : ToolUse) (s : PState) :
    (Option ToolResult × Option GoErr) × PState × List Call :=
  if t.name = "deploy_application" then executeDeployTool f env rng cfg0 t s
  else if t.name = "get_deployment_status" then executeStatusTool f cfg0 t s
  else if t.name = "cleanup_resources" then executeCleanupTool f cfg0 t s
  else ((some ⟨"tool_result", t.id, "Unknown tool: " ++ t.name⟩, none), s, [])

/-! ## The Lightsail `WaitForServiceReady` loop -/

/-- The state of a Lightsail container service as seen by
`GetContainerServiceState`. -/
inductive ContainerServiceState
  | ready
  | notReady
deriving DecidableEq, Repr

/-- `LightsailDeployer.WaitForServiceReady` (lightsail.go:124): an unbounded
`for` loop polling `GetContainerServiceState`.  `poll i` is the i-th describe
result.  The loop exits only when a poll errors or reports ready; `n` bounds
how many iterations we observe, and `none` means the loop was still running
after `n` polls. -/
def waitForServiceReadyLoop (poll : Nat → Except GoErr ContainerServiceState) :
    Nat → Nat → Option (Except GoErr Unit)
  | 0, _ => none
  | n + 1, i =>
    match poll i with
    | .error e => some (.error e)
    | .ok st =>
      if st = ContainerServiceState.ready then some (.ok ())
      else waitForServiceReadyLoop poll n (i + 1)

/-! ## Trace classifiers and example fixtures -/

/-- The deployment milestones named by the spec's ordering property. -/
inductive CallKind
  | clusterCreate
  | taskDefRegister
  | lbEnsure
  | tgEnsure
  | listenerEnsure
  | serviceCreate
  | other
deriving DecidableEq, Repr

/-- Classify a call as one of the spec's deployment milestones:
"cluster creation", "task-definition registration", "load-balancer
creation/lookup", "target-group creation/lookup", "listener
creation/lookup/modification", "service creation". -/
def callKind : Call → CallKind
  | .createCluster _ => .clusterCreate
  | .registerTaskDef _ => .taskDefRegister
  | .describeLoadBalancers _ => .lbEnsure
  | .createLoadBalancer _ => .lbEnsure
  | .describeTargetGroups _ => .tgEnsure
  | .createTargetGroup _ _ => .tgEnsure
  | .describeListeners _ => .listenerEnsure
  | .createListener _ _ _ => .listenerEnsure
  | .modifyListener _ _ => .listenerEnsure
  | .createService _ _ _ _ => .serviceCreate
  | _ => .other

/-- The required relative order of milestones for a fresh deploy. -/
def deployOrderKinds : List CallKind :=
  [.clusterCreate, .taskDefRegister, .lbEnsure, .tgEnsure, .listenerEnsure, .serviceCreate]

/-- Is this call a creation of a load-balancer-chain resource? -/
def isLBChainCreate : Call → Bool
  | .createLoadBalancer _ => true
  | .createTargetGroup _ _ => true
  | .createListener _ _ _ => true
  | _ => false

/-- The association list returned by a fault-free `CreateSecrets` run for a
given environment and service-name prefix. -/
def expectedSecretsMap (env : Env) (serviceName : String) : List (String × String) :=
  [("DB_SECRET_ARN", secretArnOf (serviceName ++ "-db-password")),
   ("JWT_SECRET_ARN", secretArnOf (serviceName ++ "-jwt-secret")),
   ("SESSION_KEY_ARN", secretArnOf (serviceName ++ "-session-key"))] ++
  (if env.anthropicApiKey = "" then []
   else [("ANTHROPIC_SECRET_ARN", secretArnOf (serviceName ++ "-anthropic-key"))]) ++
  (if env.gmailUser = "" then []
   else [("GMAIL_USER_ARN", secretArnOf (serviceName ++ "-gmail-user"))]) ++
  (if env.gmailPass = "" then []
   else [("GMAIL_PASS_ARN", secretArnOf (serviceName ++ "-gmail-pass"))])

/-- The literal spec scenario config: cluster c1, service s1, family t1,
web port 8000, basic path. -/
def exampleConfig : ECSConfig :=
  { clusterName := "c1", serviceName := "s1", taskDefinitionName := "t1",
    vpcId := "vpc-1", subnetIds := ["sub-1"], securityGroupIds := ["sg-1"],
    loadBalancerName := "lb", webAppImage := "app:latest", databaseImage := "neo4j:5",
    webAppPort := 8000, databasePort := 7687, databaseHTTPPort := 7474,
    webAppMemory := 512, webAppCPU := 256, databaseMemory := 512, databaseCPU := 256,
    environment := [], createSecrets := false, createEFS := false,
    efsVolumeId := "", mode := "dev" }

/-- A provider with no pre-existing resources (default VPC present). -/
def exampleEmptyState : PState :=
  { clusters := [], services := [], taskDefs := [], loadBalancers := [],
    targetGroups := [], listeners := [], logGroups := [], secrets := [],
    fileSystems := [], mountTargets := [], tasks := [], defaultVpc := some "vpc-1",
    subnets := [("vpc-1", "sub-1")], secGroups := [], efsReadyAfter := 0 }

/-- A provider whose cluster c1 already runs the active service s1 behind the
full load-balancing chain. -/
def exampleActiveState : PState :=
  { exampleEmptyState with
    clusters := ["c1"],
    services := [⟨"c1", "s1", "ACTIVE"⟩],
    taskDefs := ["t1"],
    loadBalancers := [⟨"s1-alb", true⟩],
    targetGroups := [⟨"s1-tg", 8000⟩],
    listeners := [⟨lbArnOf "s1-alb", 80, true, tgArnOf "s1-tg"⟩],
    tasks := [("c1", "task-1")] }

/-- An example process environment for the secret generator. -/
def exampleEnv : Env := { anthropicApiKey := "sk-test", gmailUser := "", gmailPass := "gp" }

/-- An example random stream. -/
def exampleRng : Nat → Nat := fun i => i * 7 + 3

/-- An example deploy tool invocation. -/
def exampleDeployUse : ToolUse :=
  { id := "toolu-1", name := "deploy_application", input := [] }

/-- The advanced-features config: secrets and EFS enabled. -/
def exampleAdvancedConfig : ECSConfig :=
  { exampleConfig with createSecrets := true, createEFS := true, efsVolumeId := "fs-001" }

/-- An example cleanup tool invocation without confirmation. -/
def exampleCleanupUseNoConfirm : ToolUse :=
  { id := "toolu-2", name := "cleanup_resources",
    input := [("confirm", JVal.bool false), ("service_name", JVal.str "s1")] }

/-! ## Helper lemmas: the `services` inventory is untouched before the
service-ensure step -/

theorem createSecret_services (f : Faults) (n v : String) (s : PState) :
    ((createSecret f n v s).2.1).services = s.services := by
  unfold createSecret; split <;> rfl

theorem CreateSecretsEnvTail_services (f : Faults) (env : Env) (n : String)
    (base : List (String × String)) (s : PState) :
    ((CreateSecretsEnvTail f env n base s).2.1).services = s.services := by
  unfold CreateSecretsEnvTail
  dsimp only
  repeat' split
  all_goals simp [createSecret_services]

theorem CreateSecrets_services (f : Faults) (env : Env) (rng : Nat → Nat)
    (n : String) (s : PState) :
    ((CreateSecrets f env rng n s).2.1).services = s.services := by
  unfold CreateSecrets
  dsimp only
  repeat' split
  all_goals simp [createSecret_services, CreateSecretsEnvTail_services]

theorem createEFSMountTargets_services (f : Faults) (efsId : String) :
    ∀ (subs : List String) (s : PState),
      ((createEFSMountTargets f efsId subs s).1).services = s.services := by
  intro subs
  induction subs with
  | nil => intro s; rfl
  | cons a rest ih =>
    intro s
    unfold createEFSMountTargets
    split <;> simp [ih]

theorem CreateEFS_services (f : Faults) (n : String) (subs sgs : List String)
    (s : PState) : ((CreateEFS f n subs sgs s).2.1).services = s.services := by
  unfold CreateEFS
  dsimp only
  repeat' split
  all_goals simp [createEFSMountTargets_services]

theorem deployAdvancedEFS_services (f : Faults) (cfg : ECSConfig) (s : PState) :
    ((deployAdvancedEFS f cfg s).2.1).services = s.services := by
  unfold deployAdvancedEFS
  dsimp only
  repeat' split
  all_goals simp [CreateEFS_services]

theorem createLogGroup_services (n : String) (s : PState) :
    ((createLogGroup n s).1).services = s.services := rfl

theorem CreateTaskDefinition_services (f : Faults) (cfg : ECSConfig) (s : PState) :
    ((CreateTaskDefinition f cfg s).2.1).services = s.services := by
  unfold CreateTaskDefinition
  split <;> simp [createLogGroup_services]

theorem CreateTaskDefinitionAdvanced_services (f : Faults) (cfg : ECSConfig)
    (arns : List (String × String)) (s : PState) :
    ((CreateTaskDefinitionAdvanced f cfg arns s).2.1).services = s.services := by
  unfold CreateTaskDefinitionAdvanced
  split <;> simp [createLogGroup_services]

theorem DeployAdvanced_services (f : Faults) (env : Env) (rng : Nat → Nat)
    (cfg : ECSConfig) (s : PState) :
    ((DeployAdvanced f env rng cfg s).2.1).services = s.services := by
  unfold DeployAdvanced
  dsimp only
  repeat' split
  all_goals
    simp [CreateSecrets_services, deployAdvancedEFS_services,
      CreateTaskDefinition_services, CreateTaskDefinitionAdvanced_services]

theorem CreateCluster_services (f : Faults) (n : String) (s : PState) :
    ((CreateCluster f n s).2.1).services = s.services := by
  unfold CreateCluster; split <;> rfl

theorem createLoadBalancerNew_services (f : Faults) (n : String) (s : PState)
    (t0 : List Call) : ((createLoadBalancerNew f n s t0).2.1).services = s.services := by
  unfold createLoadBalancerNew; split <;> rfl

theorem createLoadBalancer_services (f : Faults) (cfg : ECSConfig) (s : PState) :
    ((createLoadBalancer f cfg s).2.1).services = s.services := by
  unfold createLoadBalancer
  dsimp only
  repeat' split
  all_goals simp [createLoadBalancerNew_services]

theorem createTargetGroupNew_services (f : Faults) (cfg : ECSConfig) (n : String)
    (s : PState) (t0 : List Call) :
    ((createTargetGroupNew f cfg n s t0).2.1).services = s.services := by
  unfold createTargetGroupNew; split <;> rfl

theorem createTargetGroup_services (f : Faults) (cfg : ECSConfig) (s : PState) :
    ((createTargetGroup f cfg s).2.1).services = s.services := by
  unfold createTargetGroup
  dsimp only
  repeat' split
  all_goals simp [createTargetGroupNew_services]

theorem setListenerTG_services (s : PState) (l : ListenerRec) (tg : String) :
    (setListenerTG s l tg).services = s.services := rfl

theorem modifyListenerLoop_services (f : Faults) (tg : String) :
    ∀ (ls : List ListenerRec) (s : PState),
      ((modifyListenerLoop f tg ls s).2.1).services = s.services := by
  intro ls
  induction ls with
  | nil => intro s; rfl
  | cons l rest ih =>
    intro s
    unfold modifyListenerLoop
    dsimp only
    repeat' split
    all_goals simp [ih, setListenerTG_services]

theorem createListenerNew_services (f : Faults) (a b : String) (s : PState)
    (t0 : List Call) : ((createListenerNew f a b s t0).2.1).services = s.services := by
  unfold createListenerNew; split <;> rfl

theorem createListener_services (f : Faults) (a b : String) (s : PState) :
    ((createListener f a b s).2.1).services = s.services := by
  unfold createListener
  dsimp only
  repeat' split
  all_goals simp [createListenerNew_services, modifyListenerLoop_services]

theorem serviceLookup_congr {s1 s2 : PState} (h : s1.services = s2.services)
    (c n : String) : serviceLookup s1 c n = serviceLookup s2 c n := by
  unfold serviceLookup; rw [h]

/-! ## C5: cluster deletion is guarded by the service/task listing -/

/-- C5: during cleanup, the `DeleteCluster` provider call is never issued
while the provider reports at least one service or at least one task in the
cluster: `deleteCluster` lists services and tasks first and returns without
deleting when either list is non-empty. -/
theorem deleteCluster_guarded (f : Faults) (clusterName : String) (s : PState)
    (h : servicesIn s clusterName ≠ [] ∨ tasksIn s clusterName ≠ []) :
    Call.deleteCluster clusterName ∉ (deleteCluster f clusterName s).2.2 := by
  unfold deleteCluster
  rcases h with h | h <;> split_ifs <;> simp_all

theorem deleteCluster_guarded_witness :
    (servicesIn exampleActiveState "c1" ≠ [] ∨ tasksIn exampleActiveState "c1" ≠ []) ∧
    Call.deleteCluster "c1" ∉ (deleteCluster noFaults "c1" exampleActiveState).2.2 :=
  ⟨Or.inl (by decide),
   deleteCluster_guarded noFaults "c1" exampleActiveState (Or.inl (by decide))⟩

/-! ## C2: an existing active service is updated in place -/

theorem CreateService_active_eq (f : Faults) (cfg : ECSConfig) (s : PState)
    (svc : ServiceRec) (rest : List ServiceRec)
    (hf1 : f.describeServices = false) (hf2 : f.updateService = false)
    (hlook : serviceLookup s cfg.clusterName cfg.serviceName = svc :: rest)
    (hact : svc.status = "ACTIVE") :
    CreateService f cfg s =
      (.ok (), s,
       [Call.describeServices cfg.clusterName cfg.serviceName,
        Call.updateService cfg.clusterName cfg.serviceName
          (some cfg.taskDefinitionName) none]) := by
  unfold CreateService
  dsimp only
  simp [hf1, hlook, hact, hf2]

/-- C2: when the named service already exists with status ACTIVE (and the
describe/update calls succeed), `CreateService` issues exactly the describe
followed by an `UpdateService` carrying the new task-definition name, returns
success, leaves the inventory unchanged, and makes no load-balancer,
target-group or listener call. -/
theorem CreateService_active_update (f : Faults) (cfg : ECSConfig) (s : PState)
    (svc : ServiceRec) (rest : List ServiceRec)
    (hf1 : f.describeServices = false) (hf2 : f.updateService = false)
    (hlook : serviceLookup s cfg.clusterName cfg.serviceName = svc :: rest)
    (hact : svc.status = "ACTIVE") :
    CreateService f cfg s =
      (.ok (), s,
       [Call.describeServices cfg.clusterName cfg.serviceName,
        Call.updateService cfg.clusterName cfg.serviceName
          (some cfg.taskDefinitionName) none]) :=
  CreateService_active_eq f cfg s svc rest hf1 hf2 hlook hact

theorem CreateService_active_update_witness :
    noFaults.describeServices = false ∧ noFaults.updateService = false ∧
    serviceLookup exampleActiveState "c1" "s1" = [⟨"c1", "s1", "ACTIVE"⟩] ∧
    CreateService noFaults exampleConfig exampleActiveState =
      (.ok (), exampleActiveState,
       [Call.describeServices "c1" "s1",
        Call.updateService "c1" "s1" (some "t1") none]) :=
  ⟨rfl, rfl, by decide,
   CreateService_active_update noFaults exampleConfig exampleActiveState
     ⟨"c1", "s1", "ACTIVE"⟩ [] rfl rfl (by decide) rfl⟩

/-! ## C7: an existing port-80 HTTP listener is modified, not recreated -/

theorem modifyListenerLoop_no_create (f : Faults) (tg : String) :
    ∀ (ls : List ListenerRec) (s : PState) (a b : String) (p : Nat),
      Call.createListener a b p ∉ (modifyListenerLoop f tg ls s).2.2 := by
  intro ls
  induction ls with
  | nil => intro s a b p; simp [modifyListenerLoop]
  | cons l rest ih =>
    intro s a b p
    unfold modifyListenerLoop
    dsimp only
    repeat' split
    all_goals simp_all [ih]

theorem modifyListenerLoop_finds (f : Faults) (tg : String)
    (hf : f.modifyListener = false) :
    ∀ (ls : List ListenerRec) (s : PState),
      (∃ l ∈ ls, l.port = 80 ∧ l.isHTTP = true) →
      (modifyListenerLoop f tg ls s).1 = true ∧
      ∃ la, Call.modifyListener la tg ∈ (modifyListenerLoop f tg ls s).2.2 := by
  intro ls
  induction ls with
  | nil => simp
  | cons l rest ih =>
    intro s hex
    unfold modifyListenerLoop
    dsimp only
    by_cases hc : l.port = 80 ∧ l.isHTTP = true
    · rw [if_pos hc, if_neg (by simp [hf])]
      exact ⟨rfl, listenerArnOf l, by simp⟩
    · rw [if_neg hc]
      refine ih s ?_
      rcases hex with ⟨x, hx, hpx⟩
      rcases List.mem_cons.mp hx with rfl | hx2
      · exact absurd hpx hc
      · exact ⟨x, hx2, hpx⟩

/-- C7: when the load balancer already has a port-80 HTTP listener (and the
describe/modify calls succeed), `createListener` succeeds by issuing a
`ModifyListener` pointing at the new target group, and never issues a
`CreateListener`. -/
theorem createListener_reuses (f : Faults) (lbArn tgArn : String) (s : PState)
    (hf1 : f.describeListeners = false) (hf2 : f.modifyListener = false)
    (hex : ∃ l ∈ listenersOf s lbArn, l.port = 80 ∧ l.isHTTP = true) :
    (createListener f lbArn tgArn s).1 = .ok () ∧
    (∃ la, Call.modifyListener la tgArn ∈ (createListener f lbArn tgArn s).2.2) ∧
    (∀ a b p, Call.createListener a b p ∉ (createListener f lbArn tgArn s).2.2) := by
  have hfind := modifyListenerLoop_finds f tgArn hf2 (listenersOf s lbArn) s hex
  unfold createListener
  dsimp only
  rw [if_neg (by simp [hf1]), if_pos hfind.1]
  refine ⟨rfl, ?_, ?_⟩
  · obtain ⟨la, hla⟩ := hfind.2
    exact ⟨la, by simp [hla]⟩
  · intro a b p
    simpa using modifyListenerLoop_no_create f tgArn (listenersOf s lbArn) s a b p

theorem createListener_reuses_witness :
    noFaults.describeListeners = false ∧ noFaults.modifyListener = false ∧
    (∃ l ∈ listenersOf exampleActiveState (lbArnOf "s1-alb"),
       l.port = 80 ∧ l.isHTTP = true) ∧
    ((createListener noFaults (lbArnOf "s1-alb") (tgArnOf "s1-tg")
        exampleActiveState).1 = .ok () ∧
     (∃ la, Call.modifyListener la (tgArnOf "s1-tg") ∈
        (createListener noFaults (lbArnOf "s1-alb") (tgArnOf "s1-tg")
          exampleActiveState).2.2) ∧
     (∀ a b p, Call.createListener a b p ∉
        (createListener noFaults (lbArnOf "s1-alb") (tgArnOf "s1-tg")
          exampleActiveState).2.2)) :=
  ⟨rfl, rfl, by decide,
   createListener_reuses noFaults (lbArnOf "s1-alb") (tgArnOf "s1-tg")
     exampleActiveState rfl rfl (by decide)⟩

/-! ## C8: cleanup requires the boolean confirmation -/

/-- C8: a `cleanup_resources` invocation whose `confirm` argument is absent,
not a boolean, or `false` yields the cancellation tool-result (with the
caller's tool-use id, nil Go error) and issues no provider call at all. -/
theorem executeCleanupTool_requires_confirm (f : Faults) (cfg0 : ECSConfig)
    (t : ToolUse) (s : PState)
    (h : asBool (lookupInput t.input "confirm") ≠ some true) :
    executeCleanupTool f cfg0 t s =
      ((some ⟨"tool_result", t.id, cleanupCancelledMsg⟩, none), s, []) := by
  unfold executeCleanupTool executeCleanupToolCore
  dsimp only
  rcases hb : asBool (lookupInput t.input "confirm") with _ | b
  · simp [hb, renderCleanupOutcome]
  · cases b
    · simp [hb, renderCleanupOutcome]
    · exact absurd hb h

theorem executeCleanupTool_requires_confirm_witness :
    asBool (lookupInput exampleCleanupUseNoConfirm.input "confirm") ≠ some true ∧
    executeCleanupTool noFaults exampleConfig exampleCleanupUseNoConfirm
        exampleEmptyState =
      ((some ⟨"tool_result", "toolu-2", cleanupCancelledMsg⟩, none),
       exampleEmptyState, []) :=
  ⟨by decide,
   executeCleanupTool_requires_confirm noFaults exampleConfig
     exampleCleanupUseNoConfirm exampleEmptyState (by decide)⟩

/-! ## C10: tool execution never returns a Go error -/

/-- C10: for every tool invocation, `ExecuteTool` returns a non-nil
`ToolResult` whose tool-use id equals the invocation's id, and a nil Go
error; unknown tools, missing arguments and orchestrator failures are all
reported inside the result content. -/
theorem ExecuteTool_total (f : Faults) (env : Env) (rng : Nat → Nat)
    (cfg0 : ECSConfig) (t : ToolUse) (s : PState) :
    (ExecuteTool f env rng cfg0 t s).1.2 = none ∧
    Option.map ToolResult.toolUseID (ExecuteTool f env rng cfg0 t s).1.1 =
      some t.id := by
  unfold ExecuteTool executeDeployTool executeStatusTool executeCleanupTool
  dsimp only
  split_ifs <;> simp

theorem ExecuteTool_total_witness :
    (ExecuteTool noFaults exampleEnv exampleRng exampleConfig exampleDeployUse
        exampleEmptyState).1.2 = none ∧
    Option.map ToolResult.toolUseID
        (ExecuteTool noFaults exampleEnv exampleRng exampleConfig exampleDeployUse
          exampleEmptyState).1.1 = some "toolu-1" :=
  ExecuteTool_total noFaults exampleEnv exampleRng exampleConfig exampleDeployUse
    exampleEmptyState

/-! ## C6: secret generation -/

theorem charsetChars_seventy : charsetChars.length = 70 := by decide

theorem generateRandomPassword_length (rng : Nat → Nat) (start len : Nat) :
    (generateRandomPassword rng start len).length = len := by
  unfold generateRandomPassword
  simp [String.length]

theorem generateRandomPassword_mem_charset (rng : Nat → Nat) (start len : Nat) :
    ∀ c ∈ (generateRandomPassword rng start len).toList, c ∈ charsetChars := by
  intro c hc
  unfold generateRandomPassword at hc
  simp only [String.toList, List.mem_map] at hc
  obtain ⟨i, _, rfl⟩ := hc
  have hpos : 0 < charsetChars.length := by decide
  have hlt : rng (start + i) % charsetChars.length < charsetChars.length :=
    Nat.mod_lt _ hpos
  rw [List.getD_eq_getElem _ _ hlt]
  exact List.getElem_mem hlt

theorem createSecret_noFaults (n v : String) (s : PState) :
    createSecret noFaults n v s =
      (.ok (secretArnOf n), { s with secrets := s.secrets ++ [(n, v)] },
       [Call.createSecret n v]) := rfl

theorem CreateSecretsEnvTail_noFaults (env : Env) (n : String)
    (base : List (String × String)) (s : PState) :
    (CreateSecretsEnvTail noFaults env n base s).1 =
      .ok (base ++
        (if env.anthropicApiKey = "" then []
         else [("ANTHROPIC_SECRET_ARN", secretArnOf (n ++ "-anthropic-key"))]) ++
        (if env.gmailUser = "" then []
         else [("GMAIL_USER_ARN", secretArnOf (n ++ "-gmail-user"))]) ++
        (if env.gmailPass = "" then []
         else [("GMAIL_PASS_ARN", secretArnOf (n ++ "-gmail-pass"))])) := by
  unfold CreateSecretsEnvTail
  dsimp only
  split_ifs <;> simp_all [createSecret_noFaults]

/-- C6: a fault-free `CreateSecrets` run returns exactly the three
unconditional entries plus one entry per non-empty source environment
variable; the three generated passwords are registered with lengths exactly
32, 64 and 32, every character drawn from the declared character set. -/
theorem CreateSecrets_exact (env : Env) (rng : Nat → Nat) (p : String) (s : PState) :
    (CreateSecrets noFaults env rng p s).1 = .ok (expectedSecretsMap env p) ∧
    (expectedSecretsMap env p).map Prod.fst =
      ["DB_SECRET_ARN", "JWT_SECRET_ARN", "SESSION_KEY_ARN"] ++
      (if env.anthropicApiKey = "" then [] else ["ANTHROPIC_SECRET_ARN"]) ++
      (if env.gmailUser = "" then [] else ["GMAIL_USER_ARN"]) ++
      (if env.gmailPass = "" then [] else ["GMAIL_PASS_ARN"]) ∧
    Call.createSecret (p ++ "-db-password") (generateRandomPassword rng 0 32) ∈
      (CreateSecrets noFaults env rng p s).2.2 ∧
    Call.createSecret (p ++ "-jwt-secret") (generateRandomPassword rng 32 64) ∈
      (CreateSecrets noFaults env rng p s).2.2 ∧
    Call.createSecret (p ++ "-session-key") (generateRandomPassword rng 96 32) ∈
      (CreateSecrets noFaults env rng p s).2.2 ∧
    (generateRandomPassword rng 0 32).length = 32 ∧
    (generateRandomPassword rng 32 64).length = 64 ∧
    (generateRandomPassword rng 96 32).length = 32 ∧
    (∀ st ln, ∀ c ∈ (generateRandomPassword rng st ln).toList, c ∈ charsetChars) := by
  refine ⟨?_, ?_, ?_, ?_, ?_,
    generateRandomPassword_length rng 0 32,
    generateRandomPassword_length rng 32 64,
    generateRandomPassword_length rng 96 32,
    fun st ln => generateRandomPassword_mem_charset rng st ln⟩
  · unfold CreateSecrets
    dsimp only
    simp [createSecret_noFaults, CreateSecretsEnvTail_noFaults,
      expectedSecretsMap]
  · unfold expectedSecretsMap
    split_ifs <;> simp
  · unfold CreateSecrets
    dsimp only
    simp [createSecret_noFaults, CreateSecretsEnvTail_noFaults]
  · unfold CreateSecrets
    dsimp only
    simp [createSecret_noFaults, CreateSecretsEnvTail_noFaults]
  · unfold CreateSecrets
    dsimp only
    simp [createSecret_noFaults, CreateSecretsEnvTail_noFaults]

theorem CreateSecrets_exact_witness :
    (CreateSecrets noFaults exampleEnv exampleRng "s1" exampleEmptyState).1 =
      .ok (expectedSecretsMap exampleEnv "s1") ∧
    (expectedSecretsMap exampleEnv "s1").map Prod.fst =
      ["DB_SECRET_ARN", "JWT_SECRET_ARN", "SESSION_KEY_ARN"] ++
      (if exampleEnv.anthropicApiKey = "" then [] else ["ANTHROPIC_SECRET_ARN"]) ++
      (if exampleEnv.gmailUser = "" then [] else ["GMAIL_USER_ARN"]) ++
      (if exampleEnv.gmailPass = "" then [] else ["GMAIL_PASS_ARN"]) ∧
    Call.createSecret ("s1" ++ "-db-password")
        (generateRandomPassword exampleRng 0 32) ∈
      (CreateSecrets noFaults exampleEnv exampleRng "s1" exampleEmptyState).2.2 ∧
    Call.createSecret ("s1" ++ "-jwt-secret")
        (generateRandomPassword exampleRng 32 64) ∈
      (CreateSecrets noFaults exampleEnv exampleRng "s1" exampleEmptyState).2.2 ∧
    Call.createSecret ("s1" ++ "-session-key")
        (generateRandomPassword exampleRng 96 32) ∈
      (CreateSecrets noFaults exampleEnv exampleRng "s1" exampleEmptyState).2.2 ∧
    (generateRandomPassword exampleRng 0 32).length = 32 ∧
    (generateRandomPassword exampleRng 32 64).length = 64 ∧
    (generateRandomPassword exampleRng 96 32).length = 32 ∧
    (∀ st ln, ∀ c ∈ (generateRandomPassword exampleRng st ln).toList,
       c ∈ charsetChars) :=
  CreateSecrets_exact exampleEnv exampleRng "s1" exampleEmptyState

/-! ## C9: boundedness of the waits -/

theorem waitForServiceReadyLoop_stuck (poll : Nat → Except GoErr ContainerServiceState)
    (hp : ∀ i, poll i = .ok ContainerServiceState.notReady) :
    ∀ n i, waitForServiceReadyLoop poll n i = none := by
  intro n
  induction n with
  | zero => intro i; rfl
  | succ n ih =>
    intro i
    unfold waitForServiceReadyLoop
    rw [hp i]
    simp [ih]

/-- C9 counterexample: against a provider that forever reports the Lightsail
container service as not ready (with no describe error), `WaitForServiceReady`
is still looping after 100000 polls — the loop has no timeout, contradicting
the claim that every wait is bounded and expires with an error. -/
theorem waitForServiceReady_unbounded_cex :
    waitForServiceReadyLoop (fun _ => .ok ContainerServiceState.notReady) 100000 0 =
      none :=
  waitForServiceReadyLoop_stuck _ (fun _ => rfl) 100000 0

theorem efsAvailLoop_times_out (f : Faults) (readyAfter : Nat) (fsId : String)
    (hf : f.describeFileSystems = false) (hr : 60 ≤ readyAfter) :
    ∀ n i, i + (n + 1) = 60 →
      (efsAvailLoop f readyAfter fsId (n + 1) i).1 =
        .error "timeout waiting for EFS to be available" ∧
      ((efsAvailLoop f readyAfter fsId (n + 1) i).2.countP
          (fun c => decide (c = Call.describeFileSystems fsId))) = n + 1 := by
  intro n
  induction n with
  | zero =>
    intro i hi
    have h59 : i = 59 := by omega
    subst h59
    have hnot : ¬ (readyAfter ≤ 59) := by omega
    unfold efsAvailLoop
    simp [hf, hnot]
  | succ n ih =>
    intro i hi
    have hne : ¬ (i = 59) := by omega
    have hnot : ¬ (readyAfter ≤ i) := by omega
    have hrec := ih (i + 1) (by omega)
    unfold efsAvailLoop
    dsimp only
    simp [hf, hnot, hne, List.countP_cons, hrec.1, hrec.2]

/-- C9 amended: the ECS-side waits are bounded — the EFS availability poll
performs exactly 60 describe calls and returns a distinct timeout error when
the file system never becomes available, `WaitForServiceStable` passes a
fixed 10-minute bound to the SDK waiter, and the cleanup-side stable wait is
issued with a 5-minute bound — but the Lightsail `WaitForServiceReady` loop
is unbounded (see the counterexample). -/
theorem waits_bounded_amended (f : Faults) (readyAfter : Nat) (fsId : String)
    (hf : f.describeFileSystems = false) (hr : 60 ≤ readyAfter) :
    (efsAvailLoop f readyAfter fsId 60 0).1 =
      .error "timeout waiting for EFS to be available" ∧
    ((efsAvailLoop f readyAfter fsId 60 0).2.countP
        (fun c => decide (c = Call.describeFileSystems fsId))) = 60 ∧
    (∀ c n, (WaitForServiceStable f c n).2 = [Call.waitServicesStable c n 10]) ∧
    (∀ c n s m, Call.waitServicesStable c n m ∈ (deleteService f c n s).2.2 → m = 5) := by
  have h := efsAvailLoop_times_out f readyAfter fsId hf hr 59 0 rfl
  refine ⟨h.1, h.2, ?_, ?_⟩
  · intro c n
    unfold WaitForServiceStable
    dsimp only
    split <;> rfl
  · intro c n s m hm
    unfold deleteService at hm
    dsimp only at hm
    split_ifs at hm <;> simp_all

theorem waits_bounded_amended_witness :
    noFaults.describeFileSystems = false ∧ 60 ≤ 60 ∧
    ((efsAvailLoop noFaults 60 "fs-1" 60 0).1 =
       .error "timeout waiting for EFS to be available" ∧
     ((efsAvailLoop noFaults 60 "fs-1" 60 0).2.countP
         (fun c => decide (c = Call.describeFileSystems "fs-1"))) = 60 ∧
     (∀ c n, (WaitForServiceStable noFaults c n).2 =
        [Call.waitServicesStable c n 10]) ∧
     (∀ c n s m,
        Call.waitServicesStable c n m ∈ (deleteService noFaults c n s).2.2 →
        m = 5)) :=
  ⟨rfl, le_refl 60, waits_bounded_amended noFaults 60 "fs-1" rfl (le_refl 60)⟩

/-! ## C4: cleanup is best-effort and always reports success -/

theorem deleteService_first_call (f : Faults) (c n : String) (s : PState) :
    Call.updateService c n none (some 0) ∈ (deleteService f c n s).2.2 := by
  unfold deleteService
  dsimp only
  split_ifs <;> simp

theorem deleteTaskDefinition_first_call (f : Faults) (fam : String) (s : PState) :
    Call.listTaskDefs fam ∈ (deleteTaskDefinition f fam s).2.2 := by
  unfold deleteTaskDefinition
  dsimp only
  split_ifs <;> simp

theorem deleteLoadBalancerResources_first_call (f : Faults) (n : String) (s : PState) :
    Call.describeLoadBalancers (lbNameOf n) ∈
      (deleteLoadBalancerResources f n s).2.2 := by
  unfold deleteLoadBalancerResources
  dsimp only
  repeat' split
  all_goals simp

theorem deleteCluster_first_call (f : Faults) (c : String) (s : PState) :
    Call.listServices c ∈ (deleteCluster f c s).2.2 := by
  unfold deleteCluster
  split_ifs <;> simp

theorem deleteLogGroups_first_call (f : Faults) (fam : String) (s : PState) :
    Call.deleteLogGroup (webAppLogGroupOf fam) ∈ (deleteLogGroups f fam s).2.2 := by
  unfold deleteLogGroups
  dsimp only
  simp

theorem deleteSecrets_first_call (f : Faults) (n : String) (s : PState) :
    Call.deleteSecret (n ++ "-db-password") ∈ (deleteSecrets f n s).2.2 := by
  unfold deleteSecrets
  dsimp only
  simp [secretNamesOf]

theorem deleteEFS_first_call (f : Faults) (e : String) (s : PState) :
    Call.describeMountTargets e ∈ (deleteEFS f e s).2.2 := by
  unfold deleteEFS deleteEFSFileSystem
  dsimp only
  repeat' split
  all_goals simp

/-- C4: `Cleanup` always returns nil, and no matter which provider calls
fail, every sub-step is still entered: the trace always contains the leading
call of each sub-step (scale-down, task-definition listing, load-balancer
describe, cluster service listing, log-group deletion, and — when the
corresponding flags are set — secret deletion and mount-target describe). -/
theorem Cleanup_best_effort (f : Faults) (cfg : ECSConfig) (s : PState) :
    (Cleanup f cfg s).1 = .ok () ∧
    Call.updateService cfg.clusterName cfg.serviceName none (some 0) ∈
      (Cleanup f cfg s).2.2 ∧
    Call.listTaskDefs cfg.taskDefinitionName ∈ (Cleanup f cfg s).2.2 ∧
    Call.describeLoadBalancers (lbNameOf cfg.serviceName) ∈ (Cleanup f cfg s).2.2 ∧
    Call.listServices cfg.clusterName ∈ (Cleanup f cfg s).2.2 ∧
    Call.deleteLogGroup (webAppLogGroupOf cfg.taskDefinitionName) ∈
      (Cleanup f cfg s).2.2 ∧
    (cfg.createSecrets = true →
      Call.deleteSecret (cfg.serviceName ++ "-db-password") ∈ (Cleanup f cfg s).2.2) ∧
    ((cfg.createEFS && !(cfg.efsVolumeId = "")) = true →
      Call.describeMountTargets cfg.efsVolumeId ∈ (Cleanup f cfg s).2.2) := by
  unfold Cleanup
  dsimp only
  refine ⟨rfl, ?_, ?_, ?_, ?_, ?_, fun hcs => ?_, fun hce => ?_⟩
  all_goals
    simp [List.mem_append, deleteService_first_call, deleteTaskDefinition_first_call,
      deleteLoadBalancerResources_first_call, deleteCluster_first_call,
      deleteLogGroups_first_call, deleteSecrets_first_call, deleteEFS_first_call,
      *]

theorem Cleanup_best_effort_witness :
    (Cleanup noFaults exampleAdvancedConfig exampleActiveState).1 = .ok () ∧
    Call.updateService exampleAdvancedConfig.clusterName
        exampleAdvancedConfig.serviceName none (some 0) ∈
      (Cleanup noFaults exampleAdvancedConfig exampleActiveState).2.2 ∧
    Call.listTaskDefs exampleAdvancedConfig.taskDefinitionName ∈
      (Cleanup noFaults exampleAdvancedConfig exampleActiveState).2.2 ∧
    Call.describeLoadBalancers (lbNameOf exampleAdvancedConfig.serviceName) ∈
      (Cleanup noFaults exampleAdvancedConfig exampleActiveState).2.2 ∧
    Call.listServices exampleAdvancedConfig.clusterName ∈
      (Cleanup noFaults exampleAdvancedConfig exampleActiveState).2.2 ∧
    Call.deleteLogGroup (webAppLogGroupOf exampleAdvancedConfig.taskDefinitionName) ∈
      (Cleanup noFaults exampleAdvancedConfig exampleActiveState).2.2 ∧
    (exampleAdvancedConfig.createSecrets = true →
      Call.deleteSecret (exampleAdvancedConfig.serviceName ++ "-db-password") ∈
        (Cleanup noFaults exampleAdvancedConfig exampleActiveState).2.2) ∧
    ((exampleAdvancedConfig.createEFS && !(exampleAdvancedConfig.efsVolumeId = "")) = true →
      Call.describeMountTargets exampleAdvancedConfig.efsVolumeId ∈
        (Cleanup noFaults exampleAdvancedConfig exampleActiveState).2.2) :=
  Cleanup_best_effort noFaults exampleAdvancedConfig exampleActiveState

/-! ## C1: call ordering of a fresh deploy -/

theorem sublist_skip {α : Type} (l : List α) {l1 l2 : List α}
    (h : List.Sublist l1 l2) : List.Sublist l1 (l ++ l2) :=
  h.trans (List.sublist_append_right l l2)

theorem sublist_extend {α : Type} (l : List α) {l1 l2 : List α}
    (h : List.Sublist l1 l2) : List.Sublist l1 (l2 ++ l) :=
  h.trans (List.sublist_append_left l2 l)

theorem CreateCluster_trace (f : Faults) (c : String) (s : PState) :
    (CreateCluster f c s).2.2 = [Call.createCluster c] := by
  unfold CreateCluster; split <;> rfl

theorem createLoadBalancer_kind (f : Faults) (cfg : ECSConfig) (s : PState) :
    CallKind.lbEnsure ∈ ((createLoadBalancer f cfg s).2.2).map callKind := by
  unfold createLoadBalancer createLoadBalancerNew
  dsimp only
  repeat' split
  all_goals simp [callKind]

theorem createTargetGroup_kind (f : Faults) (cfg : ECSConfig) (s : PState) :
    CallKind.tgEnsure ∈ ((createTargetGroup f cfg s).2.2).map callKind := by
  unfold createTargetGroup createTargetGroupNew
  dsimp only
  repeat' split
  all_goals simp [callKind]

theorem createListener_kind (f : Faults) (a b : String) (s : PState) :
    CallKind.listenerEnsure ∈ ((createListener f a b s).2.2).map callKind := by
  unfold createListener createListenerNew
  dsimp only
  repeat' split
  all_goals simp [callKind]

theorem sublist_four {α : Type} {a b c d : α} {A B C D : List α}
    (ha : a ∈ A) (hb : b ∈ B) (hc : c ∈ C) (hd : d ∈ D) :
    List.Sublist [a, b, c, d] (A ++ (B ++ (C ++ D))) :=
  List.Sublist.append (List.singleton_sublist.mpr ha)
    (List.Sublist.append (List.singleton_sublist.mpr hb)
      (List.Sublist.append (List.singleton_sublist.mpr hc)
        (List.singleton_sublist.mpr hd)))

theorem CreateServiceFull_order (f : Faults) (cfg : ECSConfig) (s : PState)
    (t0 : List Call) (h : (CreateServiceFull f cfg s t0).1 = .ok ()) :
    List.Sublist
      [CallKind.lbEnsure, CallKind.tgEnsure, CallKind.listenerEnsure,
       CallKind.serviceCreate]
      (((CreateServiceFull f cfg s t0).2.2).map callKind) := by
  revert h
  unfold CreateServiceFull
  dsimp only
  split
  · intro h; simp at h
  · split
    · intro h; simp at h
    · split
      · intro h; simp at h
      · split
        · intro h; simp at h
        · split_ifs <;> intro h
          all_goals try simp at h
          all_goals
            dsimp only
            simp only [List.map_append, List.append_assoc]
            exact sublist_skip _ (sublist_skip _
              (sublist_four (createLoadBalancer_kind ..) (createTargetGroup_kind ..)
                (createListener_kind ..) (by simp [callKind])))

theorem CreateService_absent (f : Faults) (cfg : ECSConfig) (s : PState)
    (h : serviceLookup s cfg.clusterName cfg.serviceName = []) :
    CreateService f cfg s =
      CreateServiceFull f cfg s
        [Call.describeServices cfg.clusterName cfg.serviceName] := by
  unfold CreateService
  dsimp only
  rw [h]
  split_ifs <;> rfl

theorem CreateTaskDefinition_kind (f : Faults) (cfg : ECSConfig) (s : PState) :
    CallKind.taskDefRegister ∈ ((CreateTaskDefinition f cfg s).2.2).map callKind := by
  unfold CreateTaskDefinition
  dsimp only
  split_ifs <;> simp [callKind]

theorem CreateTaskDefinitionAdvanced_kind (f : Faults) (cfg : ECSConfig)
    (arns : List (String × String)) (s : PState) :
    CallKind.taskDefRegister ∈
      ((CreateTaskDefinitionAdvanced f cfg arns s).2.2).map callKind := by
  unfold CreateTaskDefinitionAdvanced
  dsimp only
  split_ifs <;> simp [callKind]

theorem DeployAdvanced_ok_kind (f : Faults) (env : Env) (rng : Nat → Nat)
    (cfg : ECSConfig) (s : PState)
    (h : (DeployAdvanced f env rng cfg s).1 = .ok ()) :
    CallKind.taskDefRegister ∈
      ((DeployAdvanced f env rng cfg s).2.2).map callKind := by
  revert h
  unfold DeployAdvanced
  dsimp only
  split_ifs <;> (repeat' split) <;> intro h
  all_goals try simp at h
  all_goals simp only [List.map_append, List.mem_append]
  all_goals first
    | exact Or.inr (CreateTaskDefinitionAdvanced_kind ..)
    | exact Or.inr (CreateTaskDefinition_kind ..)

theorem deployServicePhase_order (f : Faults) (cfg : ECSConfig) (t : ToolUse)
    (sTD : PState) (acc : List Call)
    (habs : serviceLookup sTD cfg.clusterName cfg.serviceName = [])
    (hacc : List.Sublist [CallKind.clusterCreate, CallKind.taskDefRegister]
              (acc.map callKind))
    (h : (deployServicePhase f cfg t sTD acc).1 = .success cfg.serviceName) :
    List.Sublist deployOrderKinds
      (((deployServicePhase f cfg t sTD acc).2.2).map callKind) := by
  revert h
  unfold deployServicePhase
  dsimp only
  rw [CreateService_absent f cfg sTD habs]
  split
  · intro h; simp at h
  · rename_i hok
    split_ifs <;> intro h
    · split at h
      · simp at h
      · rename_i a
        simp only [List.map_append, List.append_assoc]
        exact List.Sublist.append hacc
          (sublist_extend _ (CreateServiceFull_order f cfg sTD _ hok))
    · simp only [List.map_append]
      exact List.Sublist.append hacc (CreateServiceFull_order f cfg sTD _ hok)

/-- C1: a deploy-tool invocation for a service that does not pre-exist which
completes successfully issues cluster creation, task-definition registration,
load-balancer ensure, target-group ensure, listener ensure, and service
creation, in that relative order. -/
theorem executeDeployTool_fresh_order (f : Faults) (env : Env) (rng : Nat → Nat)
    (cfg0 : ECSConfig) (t : ToolUse) (s : PState)
    (habs : serviceLookup s cfg0.clusterName
              (resolveServiceName cfg0.serviceName t.input) = [])
    (h : (executeDeployToolCore f env rng cfg0 t s).1 =
           .success (resolveServiceName cfg0.serviceName t.input)) :
    List.Sublist deployOrderKinds
      (((executeDeployToolCore f env rng cfg0 t s).2.2).map callKind) := by
  revert h
  unfold executeDeployToolCore
  dsimp only
  split_ifs with hnd hflags
  · intro h; simp at h
  · split
    · intro h; simp at h
    · rename_i hok
      intro h
      apply deployServicePhase_order
      · refine Eq.trans (serviceLookup_congr ?_ _ _) habs
        rw [DeployAdvanced_services, CreateCluster_services]
      · rw [CreateCluster_trace]
        exact List.Sublist.cons₂ _
          (List.singleton_sublist.mpr (DeployAdvanced_ok_kind f env rng _ _ hok))
      · exact h
  · split
    · intro h; simp at h
    · rename_i hok
      intro h
      apply deployServicePhase_order
      · refine Eq.trans (serviceLookup_congr ?_ _ _) habs
        rw [CreateTaskDefinition_services, CreateCluster_services]
      · rw [CreateCluster_trace]
        exact List.Sublist.cons₂ _
          (List.singleton_sublist.mpr (CreateTaskDefinition_kind f _ _))
      · exact h

theorem executeDeployTool_fresh_order_witness :
    serviceLookup exampleEmptyState exampleConfig.clusterName
        (resolveServiceName exampleConfig.serviceName exampleDeployUse.input) = [] ∧
    (executeDeployToolCore noFaults exampleEnv exampleRng exampleConfig
        exampleDeployUse exampleEmptyState).1 =
      .success (resolveServiceName exampleConfig.serviceName exampleDeployUse.input) ∧
    List.Sublist deployOrderKinds
      (((executeDeployToolCore noFaults exampleEnv exampleRng exampleConfig
           exampleDeployUse exampleEmptyState).2.2).map callKind) :=
  ⟨by decide, by decide,
   executeDeployTool_fresh_order noFaults exampleEnv exampleRng exampleConfig
     exampleDeployUse exampleEmptyState (by decide) (by decide)⟩

/-! ## C3: a second deploy of the unchanged spec creates no
load-balancer-chain resource -/

theorem noLB_createSecret (f : Faults) (n v : String) (s : PState) :
    ∀ x ∈ (createSecret f n v s).2.2, isLBChainCreate x = false := by
  unfold createSecret; dsimp only; split <;> simp [isLBChainCreate]

theorem noLB_CreateSecretsEnvTail (f : Faults) (env : Env) (n : String)
    (base : List (String × String)) (s : PState) :
    ∀ x ∈ (CreateSecretsEnvTail f env n base s).2.2, isLBChainCreate x = false := by
  unfold CreateSecretsEnvTail
  dsimp only
  repeat' split
  all_goals intro x hx
  all_goals simp only [List.mem_append, List.mem_cons, List.mem_singleton,
    List.not_mem_nil, or_false, false_or] at hx
  all_goals repeat' rcases hx with hx | hx
  all_goals
    first
      | exact noLB_createSecret _ _ _ _ _ hx
      | exact noLB_CreateSecretsEnvTail _ _ _ _ _ _ hx
      | exact noLB_autoDiscoverNetworking _ _ _ _ hx
      | exact noLB_efsAvailLoop _ _ _ _ _ _ hx
      | exact noLB_createEFSMountTargets _ _ _ _ _ hx
      | exact noLB_CreateEFS _ _ _ _ _ _ hx
      | exact noLB_deployAdvancedEFS _ _ _ _ hx
      | exact noLB_CreateSecrets _ _ _ _ _ _ hx
      | exact noLB_CreateTaskDefinition _ _ _ _ hx
      | exact noLB_CreateTaskDefinitionAdvanced _ _ _ _ _ hx
      | (subst hx; rfl)
      | simp_all [isLBChainCreate]

theorem noLB_CreateSecrets (f : Faults) (env : Env) (rng : Nat → Nat) (n : String)
    (s : PState) :
    ∀ x ∈ (CreateSecrets f env rng n s).2.2, isLBChainCreate x = false := by
  unfold CreateSecrets
  dsimp only
  repeat' split
  all_goals intro x hx
  all_goals simp only [List.mem_append, List.mem_cons, List.mem_singleton,
    List.not_mem_nil, or_false, false_or] at hx
  all_goals repeat' rcases hx with hx | hx
  all_goals
    first
      | exact noLB_createSecret _ _ _ _ _ hx
      | exact noLB_CreateSecretsEnvTail _ _ _ _ _ _ hx
      | exact noLB_autoDiscoverNetworking _ _ _ _ hx
      | exact noLB_efsAvailLoop _ _ _ _ _ _ hx
      | exact noLB_createEFSMountTargets _ _ _ _ _ hx
      | exact noLB_CreateEFS _ _ _ _ _ _ hx
      | exact noLB_deployAdvancedEFS _ _ _ _ hx
      | exact noLB_CreateSecrets _ _ _ _ _ _ hx
      | exact noLB_CreateTaskDefinition _ _ _ _ hx
      | exact noLB_CreateTaskDefinitionAdvanced _ _ _ _ _ hx
      | (subst hx; rfl)
      | simp_all [isLBChainCreate]

theorem noLB_autoDiscoverNetworking (f : Faults) (cfg : ECSConfig) (s : PState) :
    ∀ x ∈ (autoDiscoverNetworking f cfg s).2, isLBChainCreate x = false := by
  unfold autoDiscoverNetworking
  dsimp only
  repeat' split
  all_goals simp [List.forall_mem_append, isLBChainCreate]

theorem noLB_efsAvailLoop (f : Faults) (ra : Nat) (fsId : String) :
    ∀ n i, ∀ x ∈ (efsAvailLoop f ra fsId n i).2, isLBChainCreate x = false := by
  intro n
  induction n with
  | zero => intro i; simp [efsAvailLoop]
  | succ n ih =>
    intro i
    unfold efsAvailLoop
    dsimp only
    split_ifs <;> intro x hx <;>
      simp only [List.mem_cons, List.not_mem_nil, or_false] at hx
    all_goals
      first
        | (subst hx; rfl)
        | (rcases hx with rfl | rfl | hx
           · rfl
           · rfl
           · exact ih (i + 1) x hx)

theorem noLB_createEFSMountTargets (f : Faults) (efsId : String) :
    ∀ (subs : List String) (s : PState),
      ∀ x ∈ (createEFSMountTargets f efsId subs s).2, isLBChainCreate x = false := by
  intro subs
  induction subs with
  | nil => intro s; simp [createEFSMountTargets]
  | cons a rest ih =>
    intro s
    unfold createEFSMountTargets
    dsimp only
    split_ifs <;> intro x hx <;>
      · simp only [List.mem_cons] at hx
        rcases hx with rfl | hx
        · rfl
        · exact ih _ x hx

theorem noLB_CreateEFS (f : Faults) (n : String) (subs sgs : List String) (s : PState) :
    ∀ x ∈ (CreateEFS f n subs sgs s).2.2, isLBChainCreate x = false := by
  unfold CreateEFS
  dsimp only
  repeat' split
  all_goals intro x hx
  all_goals simp only [List.mem_append, List.mem_cons, List.mem_singleton,
    List.not_mem_nil, or_false, false_or] at hx
  all_goals repeat' rcases hx with hx | hx
  all_goals
    first
      | exact noLB_createSecret _ _ _ _ _ hx
      | exact noLB_CreateSecretsEnvTail _ _ _ _ _ _ hx
      | exact noLB_autoDiscoverNetworking _ _ _ _ hx
      | exact noLB_efsAvailLoop _ _ _ _ _ _ hx
      | exact noLB_createEFSMountTargets _ _ _ _ _ hx
      | exact noLB_CreateEFS _ _ _ _ _ _ hx
      | exact noLB_deployAdvancedEFS _ _ _ _ hx
      | exact noLB_CreateSecrets _ _ _ _ _ _ hx
      | exact noLB_CreateTaskDefinition _ _ _ _ hx
      | exact noLB_CreateTaskDefinitionAdvanced _ _ _ _ _ hx
      | (subst hx; rfl)
      | simp_all [isLBChainCreate]

theorem noLB_deployAdvancedEFS (f : Faults) (cfg : ECSConfig) (s : PState) :
    ∀ x ∈ (deployAdvancedEFS f cfg s).2.2, isLBChainCreate x = false := by
  unfold deployAdvancedEFS
  dsimp only
  repeat' split
  all_goals intro x hx
  all_goals simp only [List.mem_append, List.mem_cons, List.mem_singleton,
    List.not_mem_nil, or_false, false_or] at hx
  all_goals repeat' rcases hx with hx | hx
  all_goals
    first
      | exact noLB_createSecret _ _ _ _ _ hx
      | exact noLB_CreateSecretsEnvTail _ _ _ _ _ _ hx
      | exact noLB_autoDiscoverNetworking _ _ _ _ hx
      | exact noLB_efsAvailLoop _ _ _ _ _ _ hx
      | exact noLB_createEFSMountTargets _ _ _ _ _ hx
      | exact noLB_CreateEFS _ _ _ _ _ _ hx
      | exact noLB_deployAdvancedEFS _ _ _ _ hx
      | exact noLB_CreateSecrets _ _ _ _ _ _ hx
      | exact noLB_CreateTaskDefinition _ _ _ _ hx
      | exact noLB_CreateTaskDefinitionAdvanced _ _ _ _ _ hx
      | (subst hx; rfl)
      | simp_all [isLBChainCreate]

theorem noLB_CreateTaskDefinition (f : Faults) (cfg : ECSConfig) (s : PState) :
    ∀ x ∈ (CreateTaskDefinition f cfg s).2.2, isLBChainCreate x = false := by
  unfold CreateTaskDefinition createLogGroup
  dsimp only
  split_ifs <;> simp [isLBChainCreate]

theorem noLB_CreateTaskDefinitionAdvanced (f : Faults) (cfg : ECSConfig)
    (arns : List (String × String)) (s : PState) :
    ∀ x ∈ (CreateTaskDefinitionAdvanced f cfg arns s).2.2, isLBChainCreate x = false := by
  unfold CreateTaskDefinitionAdvanced createLogGroup
  dsimp only
  split_ifs <;> simp [isLBChainCreate]

theorem noLB_DeployAdvanced (f : Faults) (env : Env) (rng : Nat → Nat)
    (cfg : ECSConfig) (s : PState) :
    ∀ x ∈ (DeployAdvanced f env rng cfg s).2.2, isLBChainCreate x = false := by
  unfold DeployAdvanced
  dsimp only
  repeat' split
  all_goals intro x hx
  all_goals simp only [List.mem_append, List.mem_cons, List.mem_singleton,
    List.not_mem_nil, or_false, false_or] at hx
  all_goals repeat' rcases hx with hx | hx
  all_goals
    first
      | exact noLB_createSecret _ _ _ _ _ hx
      | exact noLB_CreateSecretsEnvTail _ _ _ _ _ _ hx
      | exact noLB_autoDiscoverNetworking _ _ _ _ hx
      | exact noLB_efsAvailLoop _ _ _ _ _ _ hx
      | exact noLB_createEFSMountTargets _ _ _ _ _ hx
      | exact noLB_CreateEFS _ _ _ _ _ _ hx
      | exact noLB_deployAdvancedEFS _ _ _ _ hx
      | exact noLB_CreateSecrets _ _ _ _ _ _ hx
      | exact noLB_CreateTaskDefinition _ _ _ _ hx
      | exact noLB_CreateTaskDefinitionAdvanced _ _ _ _ _ hx
      | (subst hx; rfl)
      | simp_all [isLBChainCreate]

theorem noLB_WaitForServiceStable (f : Faults) (c n : String) :
    ∀ x ∈ (WaitForServiceStable f c n).2, isLBChainCreate x = false := by
  unfold WaitForServiceStable
  dsimp only
  split <;> simp [isLBChainCreate]

theorem autoDiscoverNetworking_names (f : Faults) (cfg : ECSConfig) (s : PState)
    (cfg1 : ECSConfig) (h : (autoDiscoverNetworking f cfg s).1 = .ok cfg1) :
    cfg1.clusterName = cfg.clusterName ∧ cfg1.serviceName = cfg.serviceName := by
  revert h
  unfold autoDiscoverNetworking
  dsimp only
  repeat' split
  all_goals intro h
  all_goals dsimp only at h
  all_goals
    first
      | (rw [Except.ok.injEq] at h
         subst h
         exact ⟨rfl, rfl⟩)
      | exact absurd h (by simp)

theorem CreateServiceFull_ok_services (f : Faults) (cfg : ECSConfig) (s : PState)
    (t0 : List Call) (h : (CreateServiceFull f cfg s t0).1 = .ok ()) :
    ((CreateServiceFull f cfg s t0).2.1).services =
      s.services ++ [⟨cfg.clusterName, cfg.serviceName, "ACTIVE"⟩] := by
  revert h
  unfold CreateServiceFull
  dsimp only
  split
  · intro h; simp at h
  · rename_i cfg1 heq1
    split
    · intro h; simp at h
    · split
      · intro h; simp at h
      · split
        · intro h; simp at h
        · split_ifs <;> intro h
          all_goals try simp at h
          all_goals
            dsimp only
            have hnames : cfg1.clusterName = cfg.clusterName ∧
                cfg1.serviceName = cfg.serviceName := by
              by_cases hvc : cfg.vpcId = "" ∨ cfg.subnetIds.isEmpty = true
              · rw [if_pos hvc] at heq1
                exact autoDiscoverNetworking_names f cfg s cfg1 heq1
              · rw [if_neg hvc] at heq1
                dsimp only at heq1
                injection heq1 with hh
                subst hh
                exact ⟨rfl, rfl⟩
            simp [createListener_services, createTargetGroup_services,
              createLoadBalancer_services, hnames.1, hnames.2]

theorem deployServicePhase_success_services (f : Faults) (cfg : ECSConfig)
    (t : ToolUse) (sTD : PState) (acc : List Call)
    (habs : serviceLookup sTD cfg.clusterName cfg.serviceName = [])
    (h : (deployServicePhase f cfg t sTD acc).1 = .success cfg.serviceName) :
    ((deployServicePhase f cfg t sTD acc).2.1).services =
      sTD.services ++ [⟨cfg.clusterName, cfg.serviceName, "ACTIVE"⟩] := by
  revert h
  unfold deployServicePhase
  dsimp only
  rw [CreateService_absent f cfg sTD habs]
  split
  · intro h; simp at h
  · rename_i hok
    split_ifs <;> intro h
    · split at h
      · simp at h
      · exact CreateServiceFull_ok_services f cfg sTD _ hok
    · exact CreateServiceFull_ok_services f cfg sTD _ hok

theorem executeDeployToolCore_success_services (f : Faults) (env : Env)
    (rng : Nat → Nat) (cfg0 : ECSConfig) (t : ToolUse) (s : PState)
    (habs : serviceLookup s cfg0.clusterName
              (resolveServiceName cfg0.serviceName t.input) = [])
    (h : (executeDeployToolCore f env rng cfg0 t s).1 =
           .success (resolveServiceName cfg0.serviceName t.input)) :
    ((executeDeployToolCore f env rng cfg0 t s).2.1).services =
      s.services ++ [⟨cfg0.clusterName,
        resolveServiceName cfg0.serviceName t.input, "ACTIVE"⟩] := by
  revert h
  unfold executeDeployToolCore
  dsimp only
  split_ifs with hnd hflags
  · intro h; simp at h
  · split
    · intro h; simp at h
    · intro h
      have hsv : ((DeployAdvanced f env rng
          { cfg0 with serviceName := resolveServiceName cfg0.serviceName t.input }
          (CreateCluster f cfg0.clusterName s).2.1).2.1).services = s.services := by
        rw [DeployAdvanced_services, CreateCluster_services]
      have habs2 := (serviceLookup_congr hsv cfg0.clusterName
        (resolveServiceName cfg0.serviceName t.input)).trans habs
      have hres := deployServicePhase_success_services f
        { cfg0 with serviceName := resolveServiceName cfg0.serviceName t.input } t _ _
        habs2 h
      rw [hres, hsv]
  · split
    · intro h; simp at h
    · intro h
      have hsv : ((CreateTaskDefinition f
          { cfg0 with serviceName := resolveServiceName cfg0.serviceName t.input }
          (CreateCluster f cfg0.clusterName s).2.1).2.1).services = s.services := by
        rw [CreateTaskDefinition_services, CreateCluster_services]
      have habs2 := (serviceLookup_congr hsv cfg0.clusterName
        (resolveServiceName cfg0.serviceName t.input)).trans habs
      have hres := deployServicePhase_success_services f
        { cfg0 with serviceName := resolveServiceName cfg0.serviceName t.input } t _ _
        habs2 h
      rw [hres, hsv]

theorem forall_mem_append_intro {α : Type} {P : α → Prop} {A B : List α}
    (hA : ∀ x ∈ A, P x) (hB : ∀ x ∈ B, P x) : ∀ x ∈ A ++ B, P x := by
  intro x hx
  rcases List.mem_append.mp hx with h | h
  · exact hA x h
  · exact hB x h

theorem WaitForServiceStable_noFaults (c n : String) :
    WaitForServiceStable noFaults c n =
      (.ok (), [Call.waitServicesStable c n 10]) := rfl

theorem executeDeployToolCore_noLB_of_active (env : Env) (rng2 : Nat → Nat)
    (cfg0 : ECSConfig) (t : ToolUse) (s1 : PState) (svc : ServiceRec)
    (rest : List ServiceRec)
    (hlook : serviceLookup s1 cfg0.clusterName
               (resolveServiceName cfg0.serviceName t.input) = svc :: rest)
    (hst : svc.status = "ACTIVE") :
    ∀ x ∈ (executeDeployToolCore noFaults env rng2 cfg0 t s1).2.2,
      isLBChainCreate x = false := by
  unfold executeDeployToolCore
  dsimp only
  rw [if_neg (by decide : ¬ (noFaults.newDeployer = true))]
  split_ifs with hflags
  · split
    · intro x hx
      rw [CreateCluster_trace] at hx
      simp only [List.mem_append, List.mem_cons, List.not_mem_nil, or_false,
        false_or] at hx
      rcases hx with rfl | hx
      · rfl
      · exact noLB_DeployAdvanced _ _ _ _ _ x hx
    · have hsv : ((DeployAdvanced noFaults env rng2
          { cfg0 with serviceName := resolveServiceName cfg0.serviceName t.input }
          (CreateCluster noFaults cfg0.clusterName s1).2.1).2.1).services =
          s1.services := by
        rw [DeployAdvanced_services, CreateCluster_services]
      have hlook2 := (serviceLookup_congr hsv cfg0.clusterName
        (resolveServiceName cfg0.serviceName t.input)).trans hlook
      unfold deployServicePhase
      dsimp only
      rw [CreateService_active_eq noFaults
        { cfg0 with serviceName := resolveServiceName cfg0.serviceName t.input } _
        svc rest rfl rfl hlook2 hst]
      dsimp only
      rw [WaitForServiceStable_noFaults]
      split_ifs
      · refine forall_mem_append_intro (forall_mem_append_intro
          (forall_mem_append_intro ?_ ?_) ?_) ?_
        · rw [CreateCluster_trace]
          intro x hx
          simp only [List.mem_singleton] at hx
          subst hx; rfl
        · exact noLB_DeployAdvanced _ _ _ _ _
        · intro x hx
          simp only [List.mem_cons, List.not_mem_nil, or_false] at hx
          rcases hx with rfl | rfl <;> rfl
        · intro x hx
          simp only [List.mem_singleton] at hx
          subst hx; rfl
      · refine forall_mem_append_intro (forall_mem_append_intro ?_ ?_) ?_
        · rw [CreateCluster_trace]
          intro x hx
          simp only [List.mem_singleton] at hx
          subst hx; rfl
        · exact noLB_DeployAdvanced _ _ _ _ _
        · intro x hx
          simp only [List.mem_cons, List.not_mem_nil, or_false] at hx
          rcases hx with rfl | rfl <;> rfl
  · split
    · intro x hx
      rw [CreateCluster_trace] at hx
      simp only [List.mem_append, List.mem_cons, List.not_mem_nil, or_false,
        false_or] at hx
      rcases hx with rfl | hx
      · rfl
      · exact noLB_CreateTaskDefinition _ _ _ x hx
    · have hsv : ((CreateTaskDefinition noFaults
          { cfg0 with serviceName := resolveServiceName cfg0.serviceName t.input }
          (CreateCluster noFaults cfg0.clusterName s1).2.1).2.1).services =
          s1.services := by
        rw [CreateTaskDefinition_services, CreateCluster_services]
      have hlook2 := (serviceLookup_congr hsv cfg0.clusterName
        (resolveServiceName cfg0.serviceName t.input)).trans hlook
      unfold deployServicePhase
      dsimp only
      rw [CreateService_active_eq noFaults
        { cfg0 with serviceName := resolveServiceName cfg0.serviceName t.input } _
        svc rest rfl rfl hlook2 hst]
      dsimp only
      rw [WaitForServiceStable_noFaults]
      split_ifs
      · refine forall_mem_append_intro (forall_mem_append_intro
          (forall_mem_append_intro ?_ ?_) ?_) ?_
        · rw [CreateCluster_trace]
          intro x hx
          simp only [List.mem_singleton] at hx
          subst hx; rfl
        · exact noLB_CreateTaskDefinition _ _ _
        · intro x hx
          simp only [List.mem_cons, List.not_mem_nil, or_false] at hx
          rcases hx with rfl | rfl <;> rfl
        · intro x hx
          simp only [List.mem_singleton] at hx
          subst hx; rfl
      · refine forall_mem_append_intro (forall_mem_append_intro ?_ ?_) ?_
        · rw [CreateCluster_trace]
          intro x hx
          simp only [List.mem_singleton] at hx
          subst hx; rfl
        · exact noLB_CreateTaskDefinition _ _ _
        · intro x hx
          simp only [List.mem_cons, List.not_mem_nil, or_false] at hx
          rcases hx with rfl | rfl <;> rfl

/-- C3: run the deploy tool twice with the same unchanged configuration,
starting from a provider where the service does not exist; if the first run
succeeds (so the provider now reports the created service as ACTIVE), the
second run issues no `CreateLoadBalancer`, `CreateTargetGroup` or
`CreateListener` call — the reuse/update paths are taken. -/
theorem deploy_twice_no_lb_chain_creates (env : Env) (rng rng2 : Nat → Nat)
    (cfg0 : ECSConfig) (t : ToolUse) (s : PState)
    (habs : serviceLookup s cfg0.clusterName
              (resolveServiceName cfg0.serviceName t.input) = [])
    (h1 : (executeDeployToolCore noFaults env rng cfg0 t s).1 =
            .success (resolveServiceName cfg0.serviceName t.input)) :
    ∀ x ∈ (executeDeployToolCore noFaults env rng2 cfg0 t
             ((executeDeployToolCore noFaults env rng cfg0 t s).2.1)).2.2,
      isLBChainCreate x = false := by
  have hs1 := executeDeployToolCore_success_services noFaults env rng cfg0 t s habs h1
  have hlook : serviceLookup ((executeDeployToolCore noFaults env rng cfg0 t s).2.1)
      cfg0.clusterName (resolveServiceName cfg0.serviceName t.input) =
      [⟨cfg0.clusterName, resolveServiceName cfg0.serviceName t.input, "ACTIVE"⟩] := by
    unfold serviceLookup at habs ⊢
    rw [hs1, List.filter_append, habs]
    simp
  exact executeDeployToolCore_noLB_of_active env rng2 cfg0 t _ _ _ hlook rfl

theorem deploy_twice_no_lb_chain_creates_witness :
    serviceLookup exampleEmptyState exampleConfig.clusterName
        (resolveServiceName exampleConfig.serviceName exampleDeployUse.input) = [] ∧
    (executeDeployToolCore noFaults exampleEnv exampleRng exampleConfig
        exampleDeployUse exampleEmptyState).1 =
      .success (resolveServiceName exampleConfig.serviceName exampleDeployUse.input) ∧
    ∀ x ∈ (executeDeployToolCore noFaults exampleEnv exampleRng exampleConfig
             exampleDeployUse
             ((executeDeployToolCore noFaults exampleEnv exampleRng exampleConfig
                exampleDeployUse exampleEmptyState).2.1)).2.2,
      isLBChainCreate x = false :=
  ⟨by decide, by decide,
   deploy_twice_no_lb_chain_creates exampleEnv exampleRng exampleRng exampleConfig
     exampleDeployUse exampleEmptyState (by decide) (by decide)⟩

end OpsAgents
